import Mathlib

/-!
# Runtime configuration assembly (`internal/runtimeconfig/types.go`)

A shallow embedding of the option resolver `renderOptionsIntoMap` and of the
registry insertion operations `AddKeyValueStore`, `AddSQLiteDatabase` and
`AddLLMCompute` of the `Spin` runtime configuration document.

Modelling conventions.

* A Go map value is either `nil` or an allocated table.  It is embedded as
  `GoMap κ ν = Option (Finmap ..)`: `none` is the nil map, `some m` an allocated
  map.  `Finmap` is a finite map up to the order of its entries, so equality of
  embedded maps is equality of contents, as for Go maps compared by content.
* A Go `error` is embedded as `Option String`: `none` is the nil error and
  `some msg` an error whose message is `msg` (all errors of this file are built
  by `fmt.Errorf` from a format with `%s` verbs only).
* A Go pointer is embedded as `Ptr α = Option α`: `none` is the nil pointer.
  The snapshots are maps to pointers, so a key of a snapshot may hold nil.
* Reading a field through a nil pointer panics.  A function that may panic
  returns an `Outcome`: `returns` with its Go results, or `panics`.
* A method with a pointer receiver returns the receiver as the call leaves it,
  also when the call panics, next to the outcome of the call.
-/

namespace runtimeconfig

/-! ## Go maps -/

/-- Go map with keys `κ` and values `ν`: `none` is the nil map. -/
abbrev GoMap (κ : Type) (ν : Type) : Type := Option (Finmap (fun _ : κ => ν))

namespace GoMap

variable {κ ν : Type} [DecidableEq κ]

/-- Comma-ok read `v, ok := m[k]`: `none` when `ok` is false.  Reading a nil
map finds nothing. -/
def get? (m : GoMap κ ν) (k : κ) : Option ν :=
  match m with
  | none => none
  | some f => f.lookup k

/-- Presence test `_, ok := m[k]`. -/
def contains (m : GoMap κ ν) (k : κ) : Bool :=
  (m.get? k).isSome

/-- Builtin `len(m)`; the nil map has length zero. -/
def len (m : GoMap κ ν) : Nat :=
  match m with
  | none => 0
  | some f => f.keys.card

end GoMap

/-! ## Pointers and panics -/

/-- Go pointer to a value of type `α`: `none` is the nil pointer. -/
abbrev Ptr (α : Type) : Type := Option α

/-- How a call ends: it returns its results, or it panics. -/
inductive Outcome (α : Type) where
  | returns (results : α)
  | panics
  deriving DecidableEq

/-- The outcome of a call seen through a function of its results. -/
def Outcome.map {α β : Type} (f : α → β) : Outcome α → Outcome β
  | .returns a => .returns (f a)
  | .panics => .panics

/-- No key of the snapshot holds a nil pointer. -/
def noNilEntry {κ ν : Type} [DecidableEq κ] (m : GoMap κ (Ptr ν)) : Prop :=
  ∀ k : κ, m.get? k ≠ some none

instance {κ ν : Type} [DecidableEq κ] (m : GoMap κ (Ptr ν)) : Decidable (noNilEntry m) :=
  match m with
  | none => isTrue (fun _ h => Option.noConfusion h)
  | some f =>
    decidable_of_iff (∀ k ∈ f.keys, (f.lookup k).map Option.isNone ≠ some true)
      ⟨fun h k hk => by
          have hmem : k ∈ f.keys := Finmap.mem_keys.mpr (Finmap.mem_of_lookup_eq_some hk)
          apply h k hmem
          show (f.lookup k).map Option.isNone = some true
          rw [show f.lookup k = some none from hk]
          rfl,
        fun h k _ hk => by
          cases hl : f.lookup k with
          | none => rw [hl] at hk; cases hk
          | some p =>
            cases p with
            | none => exact h k hl
            | some v => rw [hl] at hk; cases hk⟩

/-! ## Types of the imported packages -/

/-- Record `types.NamespacedName` of `k8s.io/apimachinery`. -/
structure NamespacedName where
  Namespace : String
  Name : String
  deriving DecidableEq

/-- Go byte slice `[]byte`.  A Go string and a byte slice are both byte
sequences; the embedding represents either by the text with those bytes. -/
structure Bytes where
  text : String
  deriving DecidableEq

/-- Go conversion `string(b)`: the string with the bytes of `b`. -/
def Bytes.toGoString (b : Bytes) : String := b.text

/-- Record `corev1.ConfigMap`, reduced to the field the resolver reads. -/
structure ConfigMap where
  Data : GoMap String String

/-- Record `corev1.Secret`, reduced to the field the resolver reads. -/
structure Secret where
  Data : GoMap String Bytes

/-- Record `corev1.ConfigMapKeySelector`: the referenced object and key. -/
structure ConfigMapKeySelector where
  Name : String
  Key : String
  deriving DecidableEq

/-- Record `corev1.SecretKeySelector`: the referenced object and key. -/
structure SecretKeySelector where
  Name : String
  Key : String
  deriving DecidableEq

/-- Modelled from the spec: the declaration of `spinv1.RuntimeConfigVarSource`
is not part of the source file.  The resolver reads its two fields and compares
each with nil, so each is a reference that may be absent. -/
structure RuntimeConfigVarSource where
  ConfigMapKeyRef : Option ConfigMapKeySelector
  SecretKeyRef : Option SecretKeySelector
  deriving DecidableEq

/-- Modelled from the spec: the declaration of `spinv1.RuntimeConfigOption` is
not part of the source file.  A declared option has a name, a literal value
(the empty string when absent) and a value source whose references may both be
absent. -/
structure RuntimeConfigOption where
  Name : String
  Value : String
  ValueFrom : RuntimeConfigVarSource
  deriving DecidableEq

/-! ## Data model of `types.go` -/

structure VaultVariablesProviderOptions where
  URL : String
  Token : String
  Mount : String
  Prefix : String
  deriving DecidableEq

structure EnvVariablesProviderOptions where
  Prefix : String
  DotEnvPath : String
  deriving DecidableEq

/-- Record `VariablesProvider`; the field `Type` of the source is `Type_` here,
and each embedded record is a field named after its type. -/
structure VariablesProvider where
  Type_ : String
  VaultVariablesProviderOptions : VaultVariablesProviderOptions
  EnvVariablesProviderOptions : EnvVariablesProviderOptions
  deriving DecidableEq

abbrev KeyValueStoreOptions : Type := GoMap String String

abbrev SQLiteDatabaseOptions : Type := GoMap String String

/-- The registry: the aggregate runtime configuration document. -/
structure Spin where
  Variables : List VariablesProvider
  KeyValueStores : GoMap String KeyValueStoreOptions
  SQLiteDatabases : GoMap String SQLiteDatabaseOptions
  LLMCompute : GoMap String String
  deriving DecidableEq

/-- The zero value `Spin{}`: no map has been initialised. -/
def Spin.zero : Spin :=
  { Variables := [], KeyValueStores := none, SQLiteDatabases := none, LLMCompute := none }

/-! ## The resolver -/

/-- Error of line 114. -/
def errConfigMapNotFound (ns name : String) : String :=
  "unmet dependency while building config: configmap (" ++ ns ++ "/" ++ name ++ ") not found"

/-- Error of line 122. -/
def errSecretNotFound (ns name : String) : String :=
  "unmet dependency while building config: secret (" ++ ns ++ "/" ++ name ++ ") not found"

/-- How the body of the loop ends for one option: the value assigned to
`value`, the error the function returns with, or a panic. -/
inductive Step where
  | ok (value : String)
  | error (err : String)
  | panic
  deriving DecidableEq

/-- Lines 107-126, the body of the loop up to the assignment of `value`.  The
comma-ok test of lines 112 and 120 tells whether the key is in the snapshot; the
pointer found is dereferenced at lines 117 and 125 without a nil test. -/
def renderValue (ns : String) (opt : RuntimeConfigOption)
    (secrets : GoMap NamespacedName (Ptr Secret))
    (configMaps : GoMap NamespacedName (Ptr ConfigMap)) : Step :=
  if opt.Value ≠ "" then
    .ok opt.Value
  else
    match opt.ValueFrom.ConfigMapKeyRef with
    | some cmKeyRef =>
      match configMaps.get? { Name := cmKeyRef.Name, Namespace := ns } with
      | none => .error (errConfigMapNotFound ns cmKeyRef.Name)
      | some none => .panic
      | some (some cm) => .ok ((cm.Data.get? cmKeyRef.Key).getD "")
    | none =>
      match opt.ValueFrom.SecretKeyRef with
      | some secKeyRef =>
        match secrets.get? { Name := secKeyRef.Name, Namespace := ns } with
        | none => .error (errSecretNotFound ns secKeyRef.Name)
        | some none => .panic
        | some (some sec) =>
          .ok (match sec.Data.get? secKeyRef.Key with
               | none => ""
               | some b => b.toGoString)
      | none => .ok ""

/-- Lines 106-131: the loop over the options still to visit, with the map built
so far, and the final return. -/
def renderLoop (ns : String)
    (secrets : GoMap NamespacedName (Ptr Secret))
    (configMaps : GoMap NamespacedName (Ptr ConfigMap)) :
    List RuntimeConfigOption → Finmap (fun _ : String => String) →
      Outcome (GoMap String String × Option String)
  | [], options => .returns (some options, none)
  | opt :: rest, options =>
    match renderValue ns opt secrets configMaps with
    | .panic => .panics
    | .error err => .returns (none, some err)
    | .ok value => renderLoop ns secrets configMaps rest (options.insert opt.Name value)

/-- Function `renderOptionsIntoMap` (lines 99-132): the Go pair of the resolved
map and the error, when the call returns. -/
def renderOptionsIntoMap (typeOpt ns : String)
    (opts : List RuntimeConfigOption)
    (secrets : GoMap NamespacedName (Ptr Secret))
    (configMaps : GoMap NamespacedName (Ptr ConfigMap)) :
    Outcome (GoMap String String × Option String) :=
  renderLoop ns secrets configMaps opts (Finmap.singleton "type" typeOpt)

/-! ## Registry insertion -/

/-- Error of line 53. -/
def errDuplicateKeyValueStore (name : String) : String :=
  "duplicate definition for key value store with name: " ++ name

/-- Error of line 74. -/
def errDuplicateSQLiteDatabase (name : String) : String :=
  "duplicate definition for sqlite database with name: " ++ name

/-- Lines 48-50 and 70-72: the map held by the field after the nil check. -/
def initialised (m : GoMap String (GoMap String String)) :
    Finmap (fun _ : String => GoMap String String) :=
  match m with
  | none => ∅
  | some f => f

/-- Method `(*Spin).AddKeyValueStore` (lines 43-63): the registry as the call
leaves it and the outcome of the call, the returned error or a panic of the
resolver. -/
def AddKeyValueStore (s : Spin) (name storeType ns : String)
    (secrets : GoMap NamespacedName (Ptr Secret))
    (configMaps : GoMap NamespacedName (Ptr ConfigMap))
    (opts : List RuntimeConfigOption) : Spin × Outcome (Option String) :=
  let stores := initialised s.KeyValueStores
  let s := { s with KeyValueStores := some stores }
  if (stores.lookup name).isSome then
    (s, .returns (some (errDuplicateKeyValueStore name)))
  else
    match renderOptionsIntoMap storeType ns opts secrets configMaps with
    | .panics => (s, .panics)
    | .returns (_, some err) => (s, .returns (some err))
    | .returns (options, none) =>
      ({ s with KeyValueStores := some (stores.insert name options) }, .returns none)

/-- Method `(*Spin).AddSQLiteDatabase` (lines 65-84). -/
def AddSQLiteDatabase (s : Spin) (name storeType ns : String)
    (secrets : GoMap NamespacedName (Ptr Secret))
    (configMaps : GoMap NamespacedName (Ptr ConfigMap))
    (opts : List RuntimeConfigOption) : Spin × Outcome (Option String) :=
  let databases := initialised s.SQLiteDatabases
  let s := { s with SQLiteDatabases := some databases }
  if (databases.lookup name).isSome then
    (s, .returns (some (errDuplicateSQLiteDatabase name)))
  else
    match renderOptionsIntoMap storeType ns opts secrets configMaps with
    | .panics => (s, .panics)
    | .returns (_, some err) => (s, .returns (some err))
    | .returns (options, none) =>
      ({ s with SQLiteDatabases := some (databases.insert name options) }, .returns none)

/-- Method `(*Spin).AddLLMCompute` (lines 86-97). -/
def AddLLMCompute (s : Spin) (computeType ns : String)
    (secrets : GoMap NamespacedName (Ptr Secret))
    (configMaps : GoMap NamespacedName (Ptr ConfigMap))
    (opts : List RuntimeConfigOption) : Spin × Outcome (Option String) :=
  match renderOptionsIntoMap computeType ns opts secrets configMaps with
  | .panics => (s, .panics)
  | .returns (_, some err) => (s, .returns (some err))
  | .returns (computeOpts, none) => ({ s with LLMCompute := computeOpts }, .returns none)

/-! ## Shapes of declared options -/

/-- The option carries at most one of a literal value, a config reference and a
secret reference. -/
def atMostOneForm (o : RuntimeConfigOption) : Prop :=
  (o.Value ≠ "" → o.ValueFrom.ConfigMapKeyRef = none ∧ o.ValueFrom.SecretKeyRef = none) ∧
  (o.ValueFrom.ConfigMapKeyRef ≠ none → o.ValueFrom.SecretKeyRef = none)

instance (o : RuntimeConfigOption) : Decidable (atMostOneForm o) := by
  unfold atMostOneForm
  infer_instance

/-- The lookup the resolver makes for the option finds no object: the option
carries no literal and either has a config reference whose object is not a key
of the config snapshot under the namespace, or has no config reference and a
secret reference whose object is not a key of the secret snapshot under the
namespace. -/
def missingObject (ns : String) (secrets : GoMap NamespacedName (Ptr Secret))
    (configMaps : GoMap NamespacedName (Ptr ConfigMap)) (o : RuntimeConfigOption) : Prop :=
  o.Value = "" ∧
  ((∃ r, o.ValueFrom.ConfigMapKeyRef = some r ∧
      configMaps.contains { Name := r.Name, Namespace := ns } = false) ∨
   (o.ValueFrom.ConfigMapKeyRef = none ∧
      ∃ r, o.ValueFrom.SecretKeyRef = some r ∧
        secrets.contains { Name := r.Name, Namespace := ns } = false))

/-- The value an option resolves to, the empty string when its lookup fails or
panics. -/
def resolvedValue (ns : String) (secrets : GoMap NamespacedName (Ptr Secret))
    (configMaps : GoMap NamespacedName (Ptr ConfigMap)) (o : RuntimeConfigOption) : String :=
  match renderValue ns o secrets configMaps with
  | .ok v => v
  | .error _ => ""
  | .panic => ""

/-- The left fold of map insertion over the options, each under its name with
the value it resolves to. -/
def foldInsert (ns : String) (secrets : GoMap NamespacedName (Ptr Secret))
    (configMaps : GoMap NamespacedName (Ptr ConfigMap)) (opts : List RuntimeConfigOption)
    (start : Finmap (fun _ : String => String)) : Finmap (fun _ : String => String) :=
  opts.foldl (fun acc o => acc.insert o.Name (resolvedValue ns secrets configMaps o)) start

/-- The two pairs of snapshots hold the same entry under every key of the
namespace `ns`. -/
def agreeOn (ns : String) (secrets secrets' : GoMap NamespacedName (Ptr Secret))
    (configMaps configMaps' : GoMap NamespacedName (Ptr ConfigMap)) : Prop :=
  (∀ key : NamespacedName, key.Namespace = ns → secrets.get? key = secrets'.get? key) ∧
  (∀ key : NamespacedName, key.Namespace = ns → configMaps.get? key = configMaps'.get? key)

/-! ## Example data -/

/-- A secret snapshot with the object `db-secret` of namespace `ns1`, holding
`s3cr3t` under the key `pw`. -/
def secretsEx : GoMap NamespacedName (Ptr Secret) :=
  some (Finmap.singleton { Namespace := "ns1", Name := "db-secret" }
    (some { Data := some (Finmap.singleton "pw" { text := "s3cr3t" }) }))

/-- A config snapshot with the object `app-config` of namespace `ns1`, holding
`eu-west` under the key `region`. -/
def configMapsEx : GoMap NamespacedName (Ptr ConfigMap) :=
  some (Finmap.singleton { Namespace := "ns1", Name := "app-config" }
    (some { Data := some (Finmap.singleton "region" "eu-west") }))

/-- An option with a literal value only. -/
def optLiteral (name value : String) : RuntimeConfigOption :=
  { Name := name, Value := value, ValueFrom := { ConfigMapKeyRef := none, SecretKeyRef := none } }

/-- An option without a literal that references a key of a config object. -/
def optConfigRef (name object key : String) : RuntimeConfigOption :=
  { Name := name, Value := "",
    ValueFrom := { ConfigMapKeyRef := some { Name := object, Key := key }, SecretKeyRef := none } }

/-- An option without a literal that references a key of a secret object. -/
def optSecretRef (name object key : String) : RuntimeConfigOption :=
  { Name := name, Value := "",
    ValueFrom := { ConfigMapKeyRef := none, SecretKeyRef := some { Name := object, Key := key } } }

/-- An option with neither a literal nor a reference. -/
def optBare (name : String) : RuntimeConfigOption :=
  { Name := name, Value := "", ValueFrom := { ConfigMapKeyRef := none, SecretKeyRef := none } }

/-- A registry whose key/value store mapping holds one store, `cache`. -/
def spinEx : Spin :=
  { Spin.zero with
    KeyValueStores := some (Finmap.singleton "cache" (some (Finmap.singleton "type" "redis"))) }

/-- A registry whose database mapping holds one database, `default`. -/
def spinDbEx : Spin :=
  { Spin.zero with
    SQLiteDatabases := some (Finmap.singleton "default" (some (Finmap.singleton "type" "spin"))) }

/-- The registry after the store `cache` of type `redis` with the literal
option `url` has been added to the zero registry. -/
def spinCacheOnce : Spin :=
  { Spin.zero with
    KeyValueStores := some (Finmap.singleton "cache"
      (some ((Finmap.singleton "type" "redis").insert "url" "redis://cache"))) }

/-- The registry after the database `default` of type `libsql` with the literal
option `url` has been added to the zero registry. -/
def spinDbOnce : Spin :=
  { Spin.zero with
    SQLiteDatabases := some (Finmap.singleton "default"
      (some ((Finmap.singleton "type" "libsql").insert "url" "libsql://db"))) }

/-- The resolved map with type `redis`, `url` and `password`. -/
def mapUrlPassword : Finmap (fun _ : String => String) :=
  ((Finmap.singleton "type" "redis").insert "url" "redis://cache").insert "password" "s3cr3t"

/-- The resolved map with type `redis`, `url` and `region`. -/
def mapUrlRegion : Finmap (fun _ : String => String) :=
  ((Finmap.singleton "type" "redis").insert "url" "redis://cache").insert "region" "eu-west"

/-- An option without a literal that carries both references: the key `region`
of the config object `app-config` and the key `token` of the secret object
`db-secret`, which that object does not hold. -/
def optBoth : RuntimeConfigOption :=
  { Name := "password", Value := "",
    ValueFrom := { ConfigMapKeyRef := some { Name := "app-config", Key := "region" },
                   SecretKeyRef := some { Name := "db-secret", Key := "token" } } }

/-- An option without a literal that carries both references: a config object
the snapshot does not hold, and the key `token` of the secret object
`db-secret`, which that object does not hold. -/
def optBothMissing : RuntimeConfigOption :=
  { Name := "password", Value := "",
    ValueFrom := { ConfigMapKeyRef := some { Name := "missing", Key := "region" },
                   SecretKeyRef := some { Name := "db-secret", Key := "token" } } }

/-- The resolved map of the scenario: type `postgres` and `password`. -/
def mapPostgres : Finmap (fun _ : String => String) :=
  (Finmap.singleton "type" "postgres").insert "password" "s3cr3t"

/-- The resolved map of the options `type` = `mysql`, `url`, `type` = `sqlite`
given to a resource of type `postgres`. -/
def mapTypeOverridden : Finmap (fun _ : String => String) :=
  (((Finmap.singleton "type" "postgres").insert "type" "mysql").insert "url" "db://x").insert
    "type" "sqlite"

/-- The resolved map of a compute backend of type `remote_http` with the
options `url` and `auth_token`. -/
def mapRemoteHttp : Finmap (fun _ : String => String) :=
  ((Finmap.singleton "type" "remote_http").insert "url" "http://llm").insert
    "auth_token" "s3cr3t"

/-- The resolved map of a compute backend of type `spin` without options. -/
def mapSpin : Finmap (fun _ : String => String) :=
  Finmap.singleton "type" "spin"

/-- A registry whose compute-backend map has been set, next to the store
`cache`. -/
def spinLlmEx : Spin :=
  { spinEx with LLMCompute := some mapRemoteHttp }

/-- An option with the literal `redis://cache` that also carries a reference to
a config object the snapshot does not hold. -/
def optLiteralWithRef : RuntimeConfigOption :=
  { Name := "url", Value := "redis://cache",
    ValueFrom := { ConfigMapKeyRef := some { Name := "absent-first", Key := "url" },
                   SecretKeyRef := none } }

/-- A config snapshot that holds `app-config` under the namespace `ns2` only. -/
def configMapsOtherNs : GoMap NamespacedName (Ptr ConfigMap) :=
  some (Finmap.singleton { Namespace := "ns2", Name := "app-config" }
    (some { Data := some (Finmap.singleton "region" "eu-west") }))

/-- Three options, two of them named `url`. -/
def optsUrlTwice : List RuntimeConfigOption :=
  [optLiteral "url" "redis://old", optConfigRef "region" "app-config" "region",
    optLiteral "url" "redis://new"]

/-- The resolved map of `optsUrlTwice` for a resource of type `redis`. -/
def mapUrlTwice : Finmap (fun _ : String => String) :=
  (((Finmap.singleton "type" "redis").insert "url" "redis://old").insert "region"
    "eu-west").insert "url" "redis://new"

/-- An option with an empty literal that carries both references, the config
reference to the key `region` of `app-config` and a secret reference to an
object the secret snapshot does not hold. -/
def optConfigFirst : RuntimeConfigOption :=
  { Name := "region", Value := "",
    ValueFrom := { ConfigMapKeyRef := some { Name := "app-config", Key := "region" },
                   SecretKeyRef := some { Name := "absent-secret", Key := "pw" } } }

/-- A config snapshot whose key `(ns1, nil-config)` holds the nil pointer. -/
def configMapsNil : GoMap NamespacedName (Ptr ConfigMap) :=
  some (Finmap.singleton { Namespace := "ns1", Name := "nil-config" } none)

/-- An option with the literal `eu` that also carries a reference to the config
object `app-config`. -/
def optLiteralRegion : RuntimeConfigOption :=
  { Name := "region", Value := "eu",
    ValueFrom := { ConfigMapKeyRef := some { Name := "app-config", Key := "region" },
                   SecretKeyRef := none } }

/-- A config snapshot whose key `(ns1, nil-config)` holds the nil pointer and
that holds `app-config` under the namespace `ns2` only. -/
def configMapsNilOtherNs : GoMap NamespacedName (Ptr ConfigMap) :=
  some (Finmap.insert { Namespace := "ns1", Name := "nil-config" } none
    (Finmap.singleton { Namespace := "ns2", Name := "app-config" }
      (some { Data := some (Finmap.singleton "region" "eu-west") })))

/-! ## Lemmas on the resolver -/

/-- A run of the loop ends in exactly one of three ways: it returns a map and
no error, it returns no map and an error, or it panics. -/
theorem renderLoop_cases (ns : String) (secrets : GoMap NamespacedName (Ptr Secret))
    (configMaps : GoMap NamespacedName (Ptr ConfigMap)) (opts : List RuntimeConfigOption)
    (acc : Finmap (fun _ : String => String)) :
    (∃ m, renderLoop ns secrets configMaps opts acc = .returns (some m, none)) ∨
    (∃ e, renderLoop ns secrets configMaps opts acc = .returns (none, some e)) ∨
    renderLoop ns secrets configMaps opts acc = .panics := by
  induction opts generalizing acc with
  | nil => exact Or.inl ⟨acc, rfl⟩
  | cons o rest ih =>
    unfold renderLoop
    cases h : renderValue ns o secrets configMaps with
    | error e => exact Or.inr (Or.inl ⟨e, rfl⟩)
    | ok v => exact ih _
    | panic => exact Or.inr (Or.inr rfl)

/-- One step of the loop on an option whose value is `v`. -/
theorem renderLoop_cons_ok {ns : String} {secrets : GoMap NamespacedName (Ptr Secret)}
    {configMaps : GoMap NamespacedName (Ptr ConfigMap)} {o : RuntimeConfigOption} {v : String}
    (h : renderValue ns o secrets configMaps = .ok v) (rest : List RuntimeConfigOption)
    (acc : Finmap (fun _ : String => String)) :
    renderLoop ns secrets configMaps (o :: rest) acc
      = renderLoop ns secrets configMaps rest (acc.insert o.Name v) := by
  rw [renderLoop, h]

/-- One step of the loop on an option whose lookup fails with `e`. -/
theorem renderLoop_cons_error {ns : String} {secrets : GoMap NamespacedName (Ptr Secret)}
    {configMaps : GoMap NamespacedName (Ptr ConfigMap)} {o : RuntimeConfigOption} {e : String}
    (h : renderValue ns o secrets configMaps = .error e) (rest : List RuntimeConfigOption)
    (acc : Finmap (fun _ : String => String)) :
    renderLoop ns secrets configMaps (o :: rest) acc = .returns (none, some e) := by
  rw [renderLoop, h]

/-- One step of the loop on an option whose lookup finds a nil pointer. -/
theorem renderLoop_cons_panic {ns : String} {secrets : GoMap NamespacedName (Ptr Secret)}
    {configMaps : GoMap NamespacedName (Ptr ConfigMap)} {o : RuntimeConfigOption}
    (h : renderValue ns o secrets configMaps = .panic) (rest : List RuntimeConfigOption)
    (acc : Finmap (fun _ : String => String)) :
    renderLoop ns secrets configMaps (o :: rest) acc = .panics := by
  rw [renderLoop, h]

/-- A run that returns no error visited only options whose value exists. -/
theorem renderLoop_ok_value {ns : String} {secrets : GoMap NamespacedName (Ptr Secret)}
    {configMaps : GoMap NamespacedName (Ptr ConfigMap)} {opts : List RuntimeConfigOption}
    {acc : Finmap (fun _ : String => String)} {r : GoMap String String}
    (h : renderLoop ns secrets configMaps opts acc = .returns (r, none))
    {o : RuntimeConfigOption} (ho : o ∈ opts) :
    ∃ v, renderValue ns o secrets configMaps = .ok v := by
  induction opts generalizing acc with
  | nil => simp at ho
  | cons a rest ih =>
    cases hv : renderValue ns a secrets configMaps with
    | error e => rw [renderLoop_cons_error hv] at h; simp at h
    | panic => rw [renderLoop_cons_panic hv] at h; simp at h
    | ok v =>
      rw [renderLoop_cons_ok hv] at h
      rcases List.mem_cons.mp ho with rfl | hmem
      · exact ⟨v, hv⟩
      · exact ih h hmem

/-- A run that returns no error returns a map. -/
theorem renderLoop_ok_some {ns : String} {secrets : GoMap NamespacedName (Ptr Secret)}
    {configMaps : GoMap NamespacedName (Ptr ConfigMap)} {opts : List RuntimeConfigOption}
    {acc : Finmap (fun _ : String => String)} {r : GoMap String String}
    (h : renderLoop ns secrets configMaps opts acc = .returns (r, none)) : ∃ m, r = some m := by
  rcases renderLoop_cases ns secrets configMaps opts acc with ⟨m, hm⟩ | ⟨e, he⟩ | hp
  · rw [hm] at h
    exact ⟨m, (Prod.mk.inj (Outcome.returns.inj h)).1.symm⟩
  · rw [he] at h; simp at h
  · rw [hp] at h; simp at h

/-- An option whose lookup fails makes the whole run end without a map: the
run returns an error, or it panics. -/
theorem renderLoop_error_of_mem {ns : String} {secrets : GoMap NamespacedName (Ptr Secret)}
    {configMaps : GoMap NamespacedName (Ptr ConfigMap)} {opts : List RuntimeConfigOption}
    {o : RuntimeConfigOption} {e : String} (ho : o ∈ opts)
    (he : renderValue ns o secrets configMaps = .error e)
    (acc : Finmap (fun _ : String => String)) :
    (∃ e', renderLoop ns secrets configMaps opts acc = .returns (none, some e')) ∨
    renderLoop ns secrets configMaps opts acc = .panics := by
  rcases renderLoop_cases ns secrets configMaps opts acc with ⟨m, hm⟩ | h
  · obtain ⟨v, hv⟩ := renderLoop_ok_value hm ho
    rw [he] at hv; cases hv
  · exact h

/-- On snapshots without nil pointers the body of the loop does not panic. -/
theorem renderValue_ne_panic {ns : String} {secrets : GoMap NamespacedName (Ptr Secret)}
    {configMaps : GoMap NamespacedName (Ptr ConfigMap)}
    (hs : noNilEntry secrets) (hc : noNilEntry configMaps) (o : RuntimeConfigOption) :
    renderValue ns o secrets configMaps ≠ .panic := by
  unfold renderValue
  split
  · simp
  · split
    · rename_i cmKeyRef _
      have := hc { Name := cmKeyRef.Name, Namespace := ns }
      split <;> simp_all
    · split
      · rename_i secKeyRef _
        have := hs { Name := secKeyRef.Name, Namespace := ns }
        split <;> simp_all
      · simp

/-- A run over options none of which panics does not panic. -/
theorem renderLoop_ne_panics {ns : String} {secrets : GoMap NamespacedName (Ptr Secret)}
    {configMaps : GoMap NamespacedName (Ptr ConfigMap)} {opts : List RuntimeConfigOption}
    (h : ∀ o ∈ opts, renderValue ns o secrets configMaps ≠ .panic)
    (acc : Finmap (fun _ : String => String)) :
    renderLoop ns secrets configMaps opts acc ≠ .panics := by
  induction opts generalizing acc with
  | nil => simp [renderLoop]
  | cons a rest ih =>
    cases hv : renderValue ns a secrets configMaps with
    | error e => rw [renderLoop_cons_error hv]; simp
    | panic => exact absurd hv (h a (List.mem_cons_self _ _))
    | ok v =>
      rw [renderLoop_cons_ok hv]
      exact ih (fun o ho => h o (List.mem_cons_of_mem _ ho)) _

/-- Keys that name no visited option keep the entry they had before the loop. -/
theorem renderLoop_lookup_of_not_mem {ns : String} {secrets : GoMap NamespacedName (Ptr Secret)}
    {configMaps : GoMap NamespacedName (Ptr ConfigMap)} {opts : List RuntimeConfigOption}
    {acc m : Finmap (fun _ : String => String)}
    (h : renderLoop ns secrets configMaps opts acc = .returns (some m, none))
    {k : String} (hk : ∀ o ∈ opts, o.Name ≠ k) : m.lookup k = acc.lookup k := by
  induction opts generalizing acc with
  | nil =>
    simp only [renderLoop, Outcome.returns.injEq, Prod.mk.injEq, Option.some.injEq,
      and_true] at h
    rw [h]
  | cons a rest ih =>
    cases hv : renderValue ns a secrets configMaps with
    | error e => rw [renderLoop_cons_error hv] at h; simp at h
    | panic => rw [renderLoop_cons_panic hv] at h; simp at h
    | ok v =>
      rw [renderLoop_cons_ok hv] at h
      rw [ih h (fun o ho => hk o (List.mem_cons_of_mem _ ho))]
      exact Finmap.lookup_insert_of_ne _ (fun hka => hk a (List.mem_cons_self _ _) hka.symm)

/-- Last write wins: after a run without error the entry under the name of an
option that no later option shares is the value of that option. -/
theorem renderLoop_lookup_last {ns : String} {secrets : GoMap NamespacedName (Ptr Secret)}
    {configMaps : GoMap NamespacedName (Ptr ConfigMap)} {pre post : List RuntimeConfigOption}
    {o : RuntimeConfigOption} {acc m : Finmap (fun _ : String => String)}
    (h : renderLoop ns secrets configMaps (pre ++ o :: post) acc = .returns (some m, none))
    (hpost : ∀ o' ∈ post, o'.Name ≠ o.Name) :
    ∃ v, renderValue ns o secrets configMaps = .ok v ∧ m.lookup o.Name = some v := by
  induction pre generalizing acc with
  | nil =>
    cases hv : renderValue ns o secrets configMaps with
    | error e => rw [List.nil_append, renderLoop_cons_error hv] at h; simp at h
    | panic => rw [List.nil_append, renderLoop_cons_panic hv] at h; simp at h
    | ok v =>
      rw [List.nil_append, renderLoop_cons_ok hv] at h
      refine ⟨v, rfl, ?_⟩
      rw [renderLoop_lookup_of_not_mem h hpost]
      exact Finmap.lookup_insert _
  | cons a rest ih =>
    cases hv : renderValue ns a secrets configMaps with
    | error e => rw [List.cons_append, renderLoop_cons_error hv] at h; simp at h
    | panic => rw [List.cons_append, renderLoop_cons_panic hv] at h; simp at h
    | ok v =>
      rw [List.cons_append, renderLoop_cons_ok hv] at h
      exact ih h

/-- A list with an option of a given name splits at the last such option. -/
theorem exists_last_named (opts : List RuntimeConfigOption) (n : String)
    (h : ∃ o ∈ opts, o.Name = n) :
    ∃ pre o post, opts = pre ++ o :: post ∧ o.Name = n ∧ ∀ o' ∈ post, o'.Name ≠ n := by
  induction opts with
  | nil => simp at h
  | cons a rest ih =>
    by_cases hrest : ∃ o ∈ rest, o.Name = n
    · obtain ⟨pre, o, post, hsplit, hname, hpost⟩ := ih hrest
      exact ⟨a :: pre, o, post, by rw [hsplit, List.cons_append], hname, hpost⟩
    · have ha : a.Name = n := by
        obtain ⟨o, ho, hn⟩ := h
        rcases List.mem_cons.mp ho with rfl | hmem
        · exact hn
        · exact absurd ⟨o, hmem, hn⟩ hrest
      exact ⟨[], a, rest, rfl, ha, fun o' ho' hn => hrest ⟨o', ho', hn⟩⟩

/-- After a run without error the entry under the name of a visited option is
the value of the last visited option of that name. -/
theorem renderLoop_lookup_mem {ns : String} {secrets : GoMap NamespacedName (Ptr Secret)}
    {configMaps : GoMap NamespacedName (Ptr ConfigMap)} {opts : List RuntimeConfigOption}
    {acc m : Finmap (fun _ : String => String)}
    (h : renderLoop ns secrets configMaps opts acc = .returns (some m, none))
    {o : RuntimeConfigOption} (ho : o ∈ opts) :
    ∃ o' ∈ opts, o'.Name = o.Name ∧
      ∃ v, renderValue ns o' secrets configMaps = .ok v ∧ m.lookup o.Name = some v := by
  obtain ⟨pre, o', post, hsplit, hname, hpost⟩ := exists_last_named opts o.Name ⟨o, ho, rfl⟩
  subst hsplit
  obtain ⟨v, hv, hlook⟩ := renderLoop_lookup_last h (fun x hx => by rw [hname]; exact hpost x hx)
  exact ⟨o', by simp, hname, v, hv, by rw [← hname]; exact hlook⟩

/-- The value of an option with a literal. -/
theorem renderValue_literal {ns : String} {o : RuntimeConfigOption}
    (secrets : GoMap NamespacedName (Ptr Secret)) (configMaps : GoMap NamespacedName (Ptr ConfigMap))
    (h : o.Value ≠ "") : renderValue ns o secrets configMaps = .ok o.Value := by
  simp [renderValue, h]

/-- The value of an option without a literal and with a config reference. -/
theorem renderValue_configRef {ns : String} {o : RuntimeConfigOption}
    (secrets : GoMap NamespacedName (Ptr Secret)) (configMaps : GoMap NamespacedName (Ptr ConfigMap))
    {r : ConfigMapKeySelector} (h : o.Value = "") (hr : o.ValueFrom.ConfigMapKeyRef = some r) :
    renderValue ns o secrets configMaps
      = match configMaps.get? { Name := r.Name, Namespace := ns } with
        | none => .error (errConfigMapNotFound ns r.Name)
        | some none => .panic
        | some (some cm) => .ok ((cm.Data.get? r.Key).getD "") := by
  simp [renderValue, h, hr]

/-- The value of an option without a literal, without a config reference and
with a secret reference. -/
theorem renderValue_secretRef {ns : String} {o : RuntimeConfigOption}
    (secrets : GoMap NamespacedName (Ptr Secret)) (configMaps : GoMap NamespacedName (Ptr ConfigMap))
    {r : SecretKeySelector} (h : o.Value = "") (hc : o.ValueFrom.ConfigMapKeyRef = none)
    (hr : o.ValueFrom.SecretKeyRef = some r) :
    renderValue ns o secrets configMaps
      = match secrets.get? { Name := r.Name, Namespace := ns } with
        | none => .error (errSecretNotFound ns r.Name)
        | some none => .panic
        | some (some sec) =>
          .ok (match sec.Data.get? r.Key with
               | none => ""
               | some b => b.toGoString) := by
  simp [renderValue, h, hc, hr]

/-- The value of an option with neither a literal nor a reference. -/
theorem renderValue_bare {ns : String} {o : RuntimeConfigOption}
    (secrets : GoMap NamespacedName (Ptr Secret)) (configMaps : GoMap NamespacedName (Ptr ConfigMap))
    (h : o.Value = "") (hc : o.ValueFrom.ConfigMapKeyRef = none)
    (hs : o.ValueFrom.SecretKeyRef = none) :
    renderValue ns o secrets configMaps = .ok "" := by
  simp [renderValue, h, hc, hs]

/-- A key the map does not contain is a key the comma-ok read does not find. -/
theorem get?_eq_none_of_contains {κ ν : Type} [DecidableEq κ] {m : GoMap κ ν} {k : κ}
    (h : m.contains k = false) : m.get? k = none := by
  simpa [GoMap.contains] using h

/-! ## Lemmas on the registry -/

/-- Reading the map held after the nil check is reading the field before it. -/
theorem initialised_lookup (m : GoMap String (GoMap String String)) (k : String) :
    (initialised m).lookup k = m.get? k := by
  cases m with
  | none => exact Finmap.lookup_empty k
  | some f => rfl

/-- The nil check keeps the length of the mapping. -/
theorem initialised_len (m : GoMap String (GoMap String String)) :
    GoMap.len (some (initialised m)) = m.len := by
  cases m with
  | none => rfl
  | some f => rfl

/-- The nil check changes nothing on a mapping that holds a key. -/
theorem initialised_of_contains {m : GoMap String (GoMap String String)} {k : String}
    (h : m.contains k = true) : some (initialised m) = m := by
  cases m with
  | none => simp [GoMap.contains, GoMap.get?] at h
  | some f => rfl

/-- The nil check changes nothing on an allocated mapping. -/
theorem initialised_of_ne_none {m : GoMap String (GoMap String String)}
    (h : m ≠ none) : some (initialised m) = m := by
  cases m with
  | none => exact absurd rfl h
  | some f => rfl

/-- Keys after an insertion. -/
theorem keys_insert {κ ν : Type} [DecidableEq κ] (k : κ) (v : ν)
    (f : Finmap (fun _ : κ => ν)) : (f.insert k v).keys = insert k f.keys := by
  ext a
  simp [Finmap.mem_keys, Finmap.mem_insert]

/-- Inserting under a fresh key adds one to the length. -/
theorem len_insert_of_lookup_none {κ ν : Type} [DecidableEq κ] {k : κ} (v : ν)
    {f : Finmap (fun _ : κ => ν)} (h : f.lookup k = none) :
    GoMap.len (some (f.insert k v)) = GoMap.len (some f) + 1 := by
  have hk : k ∉ f.keys := by
    rw [Finmap.mem_keys]
    exact Finmap.lookup_eq_none.mp h
  simp only [GoMap.len, keys_insert]
  exact Finset.card_insert_of_not_mem hk

/-- The duplicate-name errors differ from every dependency-not-found error:
their messages start with different letters. -/
theorem duplicate_ne_notFound (name ns n : String) :
    errDuplicateKeyValueStore name ≠ errConfigMapNotFound ns n ∧
    errDuplicateKeyValueStore name ≠ errSecretNotFound ns n ∧
    errDuplicateSQLiteDatabase name ≠ errConfigMapNotFound ns n ∧
    errDuplicateSQLiteDatabase name ≠ errSecretNotFound ns n := by
  refine ⟨?_, ?_, ?_, ?_⟩ <;>
  · intro h
    have h2 := congrArg (fun t : String => t.data.head?) h
    simp [errDuplicateKeyValueStore, errDuplicateSQLiteDatabase, errConfigMapNotFound,
      errSecretNotFound, String.data_append] at h2

/-- A store name already in the mapping: the call returns the duplicate-name
error and the registry is the one before the call. -/
theorem AddKeyValueStore_duplicate {s : Spin} {name : String}
    (h : s.KeyValueStores.contains name = true) (storeType ns : String)
    (secrets : GoMap NamespacedName (Ptr Secret))
    (configMaps : GoMap NamespacedName (Ptr ConfigMap))
    (opts : List RuntimeConfigOption) :
    AddKeyValueStore s name storeType ns secrets configMaps opts
      = (s, .returns (some (errDuplicateKeyValueStore name))) := by
  have hl : ((initialised s.KeyValueStores).lookup name).isSome = true := by
    rw [initialised_lookup]; exact h
  simp only [AddKeyValueStore, hl, if_true, initialised_of_contains h]

/-- A fresh store name and a failing resolution: the call returns the
resolver's error, and the only field it may have touched holds the map of the
nil check. -/
theorem AddKeyValueStore_error {s : Spin} {name storeType ns : String}
    {secrets : GoMap NamespacedName (Ptr Secret)}
    {configMaps : GoMap NamespacedName (Ptr ConfigMap)}
    {opts : List RuntimeConfigOption} {r : GoMap String String} {e : String}
    (h : s.KeyValueStores.contains name = false)
    (he : renderOptionsIntoMap storeType ns opts secrets configMaps = .returns (r, some e)) :
    AddKeyValueStore s name storeType ns secrets configMaps opts
      = ({ s with KeyValueStores := some (initialised s.KeyValueStores) }, .returns (some e)) := by
  have hl : ((initialised s.KeyValueStores).lookup name).isSome = false := by
    rw [initialised_lookup]; exact h
  simp only [AddKeyValueStore, hl, he]
  simp

/-- A fresh store name and a resolution that panics: the call panics, and the
only field it may have touched holds the map of the nil check. -/
theorem AddKeyValueStore_panics {s : Spin} {name storeType ns : String}
    {secrets : GoMap NamespacedName (Ptr Secret)}
    {configMaps : GoMap NamespacedName (Ptr ConfigMap)}
    {opts : List RuntimeConfigOption}
    (h : s.KeyValueStores.contains name = false)
    (hp : renderOptionsIntoMap storeType ns opts secrets configMaps = .panics) :
    AddKeyValueStore s name storeType ns secrets configMaps opts
      = ({ s with KeyValueStores := some (initialised s.KeyValueStores) }, .panics) := by
  have hl : ((initialised s.KeyValueStores).lookup name).isSome = false := by
    rw [initialised_lookup]; exact h
  simp only [AddKeyValueStore, hl, hp]
  simp

/-- A fresh store name and a resolution without error: the resolved map is
stored under the name. -/
theorem AddKeyValueStore_ok {s : Spin} {name storeType ns : String}
    {secrets : GoMap NamespacedName (Ptr Secret)}
    {configMaps : GoMap NamespacedName (Ptr ConfigMap)}
    {opts : List RuntimeConfigOption} {r : GoMap String String}
    (h : s.KeyValueStores.contains name = false)
    (hr : renderOptionsIntoMap storeType ns opts secrets configMaps = .returns (r, none)) :
    AddKeyValueStore s name storeType ns secrets configMaps opts
      = ({ s with KeyValueStores := some ((initialised s.KeyValueStores).insert name r) },
          .returns none) := by
  have hl : ((initialised s.KeyValueStores).lookup name).isSome = false := by
    rw [initialised_lookup]; exact h
  simp only [AddKeyValueStore, hl, hr]
  simp

/-- A call that returns no error found the name absent and the resolution
without error. -/
theorem AddKeyValueStore_none_inv {s s1 : Spin} {name storeType ns : String}
    {secrets : GoMap NamespacedName (Ptr Secret)}
    {configMaps : GoMap NamespacedName (Ptr ConfigMap)}
    {opts : List RuntimeConfigOption}
    (h : AddKeyValueStore s name storeType ns secrets configMaps opts = (s1, .returns none)) :
    s.KeyValueStores.contains name = false ∧
    ∃ r, renderOptionsIntoMap storeType ns opts secrets configMaps = .returns (r, none) := by
  cases hc : s.KeyValueStores.contains name with
  | true => rw [AddKeyValueStore_duplicate hc] at h; simp at h
  | false =>
    refine ⟨rfl, ?_⟩
    cases hr : renderOptionsIntoMap storeType ns opts secrets configMaps with
    | panics => rw [AddKeyValueStore_panics hc hr] at h; simp at h
    | returns p =>
      obtain ⟨r, e⟩ := p
      cases e with
      | none => exact ⟨r, rfl⟩
      | some e => rw [AddKeyValueStore_error hc hr] at h; simp at h

/-- A database name already in the mapping: the call returns the duplicate-name
error and the registry is the one before the call. -/
theorem AddSQLiteDatabase_duplicate {s : Spin} {name : String}
    (h : s.SQLiteDatabases.contains name = true) (storeType ns : String)
    (secrets : GoMap NamespacedName (Ptr Secret))
    (configMaps : GoMap NamespacedName (Ptr ConfigMap))
    (opts : List RuntimeConfigOption) :
    AddSQLiteDatabase s name storeType ns secrets configMaps opts
      = (s, .returns (some (errDuplicateSQLiteDatabase name))) := by
  have hl : ((initialised s.SQLiteDatabases).lookup name).isSome = true := by
    rw [initialised_lookup]; exact h
  simp only [AddSQLiteDatabase, hl, if_true, initialised_of_contains h]

/-- A fresh database name and a failing resolution: the call returns the
resolver's error, and the only field it may have touched holds the map of the
nil check. -/
theorem AddSQLiteDatabase_error {s : Spin} {name storeType ns : String}
    {secrets : GoMap NamespacedName (Ptr Secret)}
    {configMaps : GoMap NamespacedName (Ptr ConfigMap)}
    {opts : List RuntimeConfigOption} {r : GoMap String String} {e : String}
    (h : s.SQLiteDatabases.contains name = false)
    (he : renderOptionsIntoMap storeType ns opts secrets configMaps = .returns (r, some e)) :
    AddSQLiteDatabase s name storeType ns secrets configMaps opts
      = ({ s with SQLiteDatabases := some (initialised s.SQLiteDatabases) }, .returns (some e)) := by
  have hl : ((initialised s.SQLiteDatabases).lookup name).isSome = false := by
    rw [initialised_lookup]; exact h
  simp only [AddSQLiteDatabase, hl, he]
  simp

/-- A fresh database name and a resolution that panics: the call panics, and the
only field it may have touched holds the map of the nil check. -/
theorem AddSQLiteDatabase_panics {s : Spin} {name storeType ns : String}
    {secrets : GoMap NamespacedName (Ptr Secret)}
    {configMaps : GoMap NamespacedName (Ptr ConfigMap)}
    {opts : List RuntimeConfigOption}
    (h : s.SQLiteDatabases.contains name = false)
    (hp : renderOptionsIntoMap storeType ns opts secrets configMaps = .panics) :
    AddSQLiteDatabase s name storeType ns secrets configMaps opts
      = ({ s with SQLiteDatabases := some (initialised s.SQLiteDatabases) }, .panics) := by
  have hl : ((initialised s.SQLiteDatabases).lookup name).isSome = false := by
    rw [initialised_lookup]; exact h
  simp only [AddSQLiteDatabase, hl, hp]
  simp

/-- A fresh database name and a resolution without error: the resolved map is
stored under the name. -/
theorem AddSQLiteDatabase_ok {s : Spin} {name storeType ns : String}
    {secrets : GoMap NamespacedName (Ptr Secret)}
    {configMaps : GoMap NamespacedName (Ptr ConfigMap)}
    {opts : List RuntimeConfigOption} {r : GoMap String String}
    (h : s.SQLiteDatabases.contains name = false)
    (hr : renderOptionsIntoMap storeType ns opts secrets configMaps = .returns (r, none)) :
    AddSQLiteDatabase s name storeType ns secrets configMaps opts
      = ({ s with SQLiteDatabases := some ((initialised s.SQLiteDatabases).insert name r) },
          .returns none) := by
  have hl : ((initialised s.SQLiteDatabases).lookup name).isSome = false := by
    rw [initialised_lookup]; exact h
  simp only [AddSQLiteDatabase, hl, hr]
  simp

/-- A call that returns no error found the name absent and the resolution
without error. -/
theorem AddSQLiteDatabase_none_inv {s s1 : Spin} {name storeType ns : String}
    {secrets : GoMap NamespacedName (Ptr Secret)}
    {configMaps : GoMap NamespacedName (Ptr ConfigMap)}
    {opts : List RuntimeConfigOption}
    (h : AddSQLiteDatabase s name storeType ns secrets configMaps opts = (s1, .returns none)) :
    s.SQLiteDatabases.contains name = false ∧
    ∃ r, renderOptionsIntoMap storeType ns opts secrets configMaps = .returns (r, none) := by
  cases hc : s.SQLiteDatabases.contains name with
  | true => rw [AddSQLiteDatabase_duplicate hc] at h; simp at h
  | false =>
    refine ⟨rfl, ?_⟩
    cases hr : renderOptionsIntoMap storeType ns opts secrets configMaps with
    | panics => rw [AddSQLiteDatabase_panics hc hr] at h; simp at h
    | returns p =>
      obtain ⟨r, e⟩ := p
      cases e with
      | none => exact ⟨r, rfl⟩
      | some e => rw [AddSQLiteDatabase_error hc hr] at h; simp at h

/-! ## Duplicate names -/

/-- C1: a name already present in the key/value store mapping (resp. the
database mapping) makes the insertion return the duplicate-name error, which is
no dependency-not-found error, whatever the type, namespace, options and
snapshots; the registry after the call is the registry before it, so the entry
under the name and the length of the mapping are kept.  In particular, when a
first insertion under a name returned no error, the entry under the name is the
map the first resolution returned, and a second insertion under that name
returns the duplicate-name error and keeps the registry, whatever its
arguments. -/
theorem C1_duplicate_name_rejected (s : Spin) (name storeType ns : String)
    (secrets : GoMap NamespacedName (Ptr Secret))
    (configMaps : GoMap NamespacedName (Ptr ConfigMap))
    (opts : List RuntimeConfigOption) :
    (s.KeyValueStores.contains name = true →
      AddKeyValueStore s name storeType ns secrets configMaps opts
        = (s, .returns (some (errDuplicateKeyValueStore name))) ∧
      (∀ ns' n : String, errDuplicateKeyValueStore name ≠ errConfigMapNotFound ns' n ∧
        errDuplicateKeyValueStore name ≠ errSecretNotFound ns' n) ∧
      (AddKeyValueStore s name storeType ns secrets configMaps opts).1.KeyValueStores.get? name
        = s.KeyValueStores.get? name ∧
      (AddKeyValueStore s name storeType ns secrets configMaps opts).1.KeyValueStores.len
        = s.KeyValueStores.len) ∧
    (s.SQLiteDatabases.contains name = true →
      AddSQLiteDatabase s name storeType ns secrets configMaps opts
        = (s, .returns (some (errDuplicateSQLiteDatabase name))) ∧
      (∀ ns' n : String, errDuplicateSQLiteDatabase name ≠ errConfigMapNotFound ns' n ∧
        errDuplicateSQLiteDatabase name ≠ errSecretNotFound ns' n) ∧
      (AddSQLiteDatabase s name storeType ns secrets configMaps opts).1.SQLiteDatabases.get? name
        = s.SQLiteDatabases.get? name ∧
      (AddSQLiteDatabase s name storeType ns secrets configMaps opts).1.SQLiteDatabases.len
        = s.SQLiteDatabases.len) ∧
    (∀ s1 : Spin,
      AddKeyValueStore s name storeType ns secrets configMaps opts = (s1, .returns none) →
      (∃ r, renderOptionsIntoMap storeType ns opts secrets configMaps = .returns (r, none) ∧
        s1.KeyValueStores.get? name = some r) ∧
      ∀ (storeType' ns' : String) (secrets' : GoMap NamespacedName (Ptr Secret))
        (configMaps' : GoMap NamespacedName (Ptr ConfigMap)) (opts' : List RuntimeConfigOption),
        AddKeyValueStore s1 name storeType' ns' secrets' configMaps' opts'
          = (s1, .returns (some (errDuplicateKeyValueStore name)))) ∧
    (∀ s1 : Spin,
      AddSQLiteDatabase s name storeType ns secrets configMaps opts = (s1, .returns none) →
      (∃ r, renderOptionsIntoMap storeType ns opts secrets configMaps = .returns (r, none) ∧
        s1.SQLiteDatabases.get? name = some r) ∧
      ∀ (storeType' ns' : String) (secrets' : GoMap NamespacedName (Ptr Secret))
        (configMaps' : GoMap NamespacedName (Ptr ConfigMap)) (opts' : List RuntimeConfigOption),
        AddSQLiteDatabase s1 name storeType' ns' secrets' configMaps' opts'
          = (s1, .returns (some (errDuplicateSQLiteDatabase name)))) := by
  refine ⟨?_, ?_, ?_, ?_⟩
  · intro h
    rw [AddKeyValueStore_duplicate h]
    exact ⟨rfl, fun ns' n => ⟨(duplicate_ne_notFound name ns' n).1,
      (duplicate_ne_notFound name ns' n).2.1⟩, rfl, rfl⟩
  · intro h
    rw [AddSQLiteDatabase_duplicate h]
    exact ⟨rfl, fun ns' n => ⟨(duplicate_ne_notFound name ns' n).2.2.1,
      (duplicate_ne_notFound name ns' n).2.2.2⟩, rfl, rfl⟩
  · intro s1 h
    obtain ⟨hc, r, hr⟩ := AddKeyValueStore_none_inv h
    rw [AddKeyValueStore_ok hc hr] at h
    have hs1 := (Prod.mk.inj h).1
    have hget : s1.KeyValueStores.get? name = some r := by
      rw [← hs1]
      exact Finmap.lookup_insert _
    refine ⟨⟨r, hr, hget⟩, fun storeType' ns' secrets' configMaps' opts' => ?_⟩
    exact AddKeyValueStore_duplicate (by simp [GoMap.contains, hget]) _ _ _ _ _
  · intro s1 h
    obtain ⟨hc, r, hr⟩ := AddSQLiteDatabase_none_inv h
    rw [AddSQLiteDatabase_ok hc hr] at h
    have hs1 := (Prod.mk.inj h).1
    have hget : s1.SQLiteDatabases.get? name = some r := by
      rw [← hs1]
      exact Finmap.lookup_insert _
    refine ⟨⟨r, hr, hget⟩, fun storeType' ns' secrets' configMaps' opts' => ?_⟩
    exact AddSQLiteDatabase_duplicate (by simp [GoMap.contains, hget]) _ _ _ _ _

/-- Witness of C1: the store `cache` and the database `default`, each added a
second time with options whose reference cannot be resolved, and each added
twice to the zero registry. -/
theorem C1_duplicate_name_rejected_witness :
    (spinEx.KeyValueStores.contains "cache" = true ∧
      AddKeyValueStore spinEx "cache" "redis" "ns1" none none [optConfigRef "url" "missing" "k"]
        = (spinEx, .returns (some "duplicate definition for key value store with name: cache"))) ∧
    (spinDbEx.SQLiteDatabases.contains "default" = true ∧
      AddSQLiteDatabase spinDbEx "default" "spin" "ns1" none none [optSecretRef "token" "missing" "k"]
        = (spinDbEx, .returns (some "duplicate definition for sqlite database with name: default"))) ∧
    (AddKeyValueStore Spin.zero "cache" "redis" "ns1" none none [optLiteral "url" "redis://cache"]
        = (spinCacheOnce, .returns none) ∧
      spinCacheOnce.KeyValueStores.get? "cache"
        = some (some ((Finmap.singleton "type" "redis").insert "url" "redis://cache")) ∧
      AddKeyValueStore spinCacheOnce "cache" "memcached" "ns2" secretsEx configMapsEx []
        = (spinCacheOnce, .returns (some "duplicate definition for key value store with name: cache"))) ∧
    (AddSQLiteDatabase Spin.zero "default" "libsql" "ns1" none none [optLiteral "url" "libsql://db"]
        = (spinDbOnce, .returns none) ∧
      AddSQLiteDatabase spinDbOnce "default" "spin" "ns2" secretsEx configMapsEx []
        = (spinDbOnce, .returns (some "duplicate definition for sqlite database with name: default"))) :=
  ⟨⟨by decide,
      ((C1_duplicate_name_rejected spinEx "cache" "redis" "ns1" none none
        [optConfigRef "url" "missing" "k"]).1 (by decide)).1⟩,
    ⟨by decide,
      ((C1_duplicate_name_rejected spinDbEx "default" "spin" "ns1" none none
        [optSecretRef "token" "missing" "k"]).2.1 (by decide)).1⟩,
    ⟨by decide, by decide,
      ((C1_duplicate_name_rejected Spin.zero "cache" "redis" "ns1" none none
        [optLiteral "url" "redis://cache"]).2.2.1 spinCacheOnce (by decide)).2
        "memcached" "ns2" secretsEx configMapsEx []⟩,
    ⟨by decide,
      ((C1_duplicate_name_rejected Spin.zero "default" "libsql" "ns1" none none
        [optLiteral "url" "libsql://db"]).2.2.2 spinDbOnce (by decide)).2
        "spin" "ns2" secretsEx configMapsEx []⟩⟩

/-! ## Failing resolution -/

/-- C2, as stated, fails on a registry whose mapping was never initialised: the
store `cache` (resp. the database `default`) is absent from the zero registry
and the resolver fails on a reference to a config object missing from the
snapshot; the call returns the resolver's error, but the nil check of lines
48-50 (resp. 70-72) has replaced the nil mapping by an allocated empty map, so
the registry after the call is not the registry before it. -/
theorem C2_counterexample :
    (Spin.zero.KeyValueStores.contains "cache" = false ∧
      renderOptionsIntoMap "redis" "ns1" [optConfigRef "url" "missing" "k"] none none
        = .returns (none, some (errConfigMapNotFound "ns1" "missing")) ∧
      (AddKeyValueStore Spin.zero "cache" "redis" "ns1" none none
        [optConfigRef "url" "missing" "k"]).2
        = .returns (some (errConfigMapNotFound "ns1" "missing")) ∧
      (AddKeyValueStore Spin.zero "cache" "redis" "ns1" none none
        [optConfigRef "url" "missing" "k"]).1.KeyValueStores = some ∅ ∧
      Spin.zero.KeyValueStores = none ∧
      (AddKeyValueStore Spin.zero "cache" "redis" "ns1" none none
        [optConfigRef "url" "missing" "k"]).1 ≠ Spin.zero) ∧
    (Spin.zero.SQLiteDatabases.contains "default" = false ∧
      (AddSQLiteDatabase Spin.zero "default" "spin" "ns1" none none
        [optConfigRef "url" "missing" "k"]).2
        = .returns (some (errConfigMapNotFound "ns1" "missing")) ∧
      (AddSQLiteDatabase Spin.zero "default" "spin" "ns1" none none
        [optConfigRef "url" "missing" "k"]).1.SQLiteDatabases = some ∅ ∧
      Spin.zero.SQLiteDatabases = none ∧
      (AddSQLiteDatabase Spin.zero "default" "spin" "ns1" none none
        [optConfigRef "url" "missing" "k"]).1 ≠ Spin.zero) := by
  decide

/-- C2, amended: when the name is absent from the key/value store mapping
(resp. the database mapping) and the resolver fails with the error `e`, the
insertion returns exactly `e`; the mapping after the call has the same entry
under every name and the same length as before, and the other three fields of
the registry are the ones before the call.  When the mapping was initialised
before the call, the registry after the call is the registry before it; a
mapping that was nil is an allocated map without entries afterwards. -/
theorem C2_resolution_failure_keeps_entries (s : Spin) (name storeType ns : String)
    (secrets : GoMap NamespacedName (Ptr Secret))
    (configMaps : GoMap NamespacedName (Ptr ConfigMap))
    (opts : List RuntimeConfigOption) (r : GoMap String String) (e : String)
    (he : renderOptionsIntoMap storeType ns opts secrets configMaps = .returns (r, some e)) :
    (s.KeyValueStores.contains name = false →
      (AddKeyValueStore s name storeType ns secrets configMaps opts).2 = .returns (some e) ∧
      (∀ k : String,
        (AddKeyValueStore s name storeType ns secrets configMaps opts).1.KeyValueStores.get? k
          = s.KeyValueStores.get? k) ∧
      (AddKeyValueStore s name storeType ns secrets configMaps opts).1.KeyValueStores.len
        = s.KeyValueStores.len ∧
      (AddKeyValueStore s name storeType ns secrets configMaps opts).1.Variables = s.Variables ∧
      (AddKeyValueStore s name storeType ns secrets configMaps opts).1.SQLiteDatabases
        = s.SQLiteDatabases ∧
      (AddKeyValueStore s name storeType ns secrets configMaps opts).1.LLMCompute
        = s.LLMCompute ∧
      (s.KeyValueStores ≠ none →
        (AddKeyValueStore s name storeType ns secrets configMaps opts).1 = s) ∧
      (s.KeyValueStores = none →
        (AddKeyValueStore s name storeType ns secrets configMaps opts).1.KeyValueStores
          = some ∅)) ∧
    (s.SQLiteDatabases.contains name = false →
      (AddSQLiteDatabase s name storeType ns secrets configMaps opts).2 = .returns (some e) ∧
      (∀ k : String,
        (AddSQLiteDatabase s name storeType ns secrets configMaps opts).1.SQLiteDatabases.get? k
          = s.SQLiteDatabases.get? k) ∧
      (AddSQLiteDatabase s name storeType ns secrets configMaps opts).1.SQLiteDatabases.len
        = s.SQLiteDatabases.len ∧
      (AddSQLiteDatabase s name storeType ns secrets configMaps opts).1.Variables = s.Variables ∧
      (AddSQLiteDatabase s name storeType ns secrets configMaps opts).1.KeyValueStores
        = s.KeyValueStores ∧
      (AddSQLiteDatabase s name storeType ns secrets configMaps opts).1.LLMCompute
        = s.LLMCompute ∧
      (s.SQLiteDatabases ≠ none →
        (AddSQLiteDatabase s name storeType ns secrets configMaps opts).1 = s) ∧
      (s.SQLiteDatabases = none →
        (AddSQLiteDatabase s name storeType ns secrets configMaps opts).1.SQLiteDatabases
          = some ∅)) := by
  constructor
  · intro h
    rw [AddKeyValueStore_error h he]
    refine ⟨rfl, fun k => initialised_lookup _ k, initialised_len _, rfl, rfl, rfl, ?_, ?_⟩
    · intro hne
      simp only [initialised_of_ne_none hne]
    · intro hnil
      simp only [hnil, initialised]
  · intro h
    rw [AddSQLiteDatabase_error h he]
    refine ⟨rfl, fun k => initialised_lookup _ k, initialised_len _, rfl, rfl, rfl, ?_, ?_⟩
    · intro hne
      simp only [initialised_of_ne_none hne]
    · intro hnil
      simp only [hnil, initialised]

/-- Witness of C2, amended: a store and a database whose option references a
config object missing from the snapshot, on registries that hold another
entry. -/
theorem C2_resolution_failure_keeps_entries_witness :
    (renderOptionsIntoMap "redis" "ns1" [optConfigRef "url" "missing" "k"] secretsEx configMapsEx
        = .returns
          (none, some "unmet dependency while building config: configmap (ns1/missing) not found") ∧
      spinEx.KeyValueStores.contains "sessions" = false ∧
      spinEx.KeyValueStores ≠ none ∧
      AddKeyValueStore spinEx "sessions" "redis" "ns1" secretsEx configMapsEx
        [optConfigRef "url" "missing" "k"]
        = (spinEx, .returns
            (some "unmet dependency while building config: configmap (ns1/missing) not found"))) ∧
    (spinDbEx.SQLiteDatabases.contains "audit" = false ∧
      spinDbEx.SQLiteDatabases ≠ none ∧
      AddSQLiteDatabase spinDbEx "audit" "redis" "ns1" secretsEx configMapsEx
        [optConfigRef "url" "missing" "k"]
        = (spinDbEx, .returns
            (some "unmet dependency while building config: configmap (ns1/missing) not found"))) :=
  ⟨⟨by decide, by decide, by decide,
      Prod.ext
        (((C2_resolution_failure_keeps_entries spinEx "sessions" "redis" "ns1" secretsEx
          configMapsEx [optConfigRef "url" "missing" "k"] none
          "unmet dependency while building config: configmap (ns1/missing) not found"
          (by decide)).1 (by decide)).2.2.2.2.2.2.1 (by decide))
        ((C2_resolution_failure_keeps_entries spinEx "sessions" "redis" "ns1" secretsEx
          configMapsEx [optConfigRef "url" "missing" "k"] none
          "unmet dependency while building config: configmap (ns1/missing) not found"
          (by decide)).1 (by decide)).1⟩,
    ⟨by decide, by decide,
      Prod.ext
        (((C2_resolution_failure_keeps_entries spinDbEx "audit" "redis" "ns1" secretsEx
          configMapsEx [optConfigRef "url" "missing" "k"] none
          "unmet dependency while building config: configmap (ns1/missing) not found"
          (by decide)).2 (by decide)).2.2.2.2.2.2.1 (by decide))
        ((C2_resolution_failure_keeps_entries spinDbEx "audit" "redis" "ns1" secretsEx
          configMapsEx [optConfigRef "url" "missing" "k"] none
          "unmet dependency while building config: configmap (ns1/missing) not found"
          (by decide)).2 (by decide)).1⟩⟩

/-! ## Successful insertion -/

/-- C3: when the name is not a key of the key/value store mapping (resp. the
database mapping) and the resolver returns the map `m` without error, the
insertion returns no error, the mapping afterwards holds exactly `m` under the
name and the entry it held before under every other name, and its length has
grown by exactly one. -/
theorem C3_insert_fresh_name (s : Spin) (name storeType ns : String)
    (secrets : GoMap NamespacedName (Ptr Secret))
    (configMaps : GoMap NamespacedName (Ptr ConfigMap))
    (opts : List RuntimeConfigOption) (m : Finmap (fun _ : String => String))
    (hm : renderOptionsIntoMap storeType ns opts secrets configMaps = .returns (some m, none)) :
    (s.KeyValueStores.contains name = false →
      (AddKeyValueStore s name storeType ns secrets configMaps opts).2 = .returns none ∧
      (AddKeyValueStore s name storeType ns secrets configMaps opts).1.KeyValueStores.get? name
        = some (some m) ∧
      (∀ k : String, k ≠ name →
        (AddKeyValueStore s name storeType ns secrets configMaps opts).1.KeyValueStores.get? k
          = s.KeyValueStores.get? k) ∧
      (AddKeyValueStore s name storeType ns secrets configMaps opts).1.KeyValueStores.len
        = s.KeyValueStores.len + 1) ∧
    (s.SQLiteDatabases.contains name = false →
      (AddSQLiteDatabase s name storeType ns secrets configMaps opts).2 = .returns none ∧
      (AddSQLiteDatabase s name storeType ns secrets configMaps opts).1.SQLiteDatabases.get? name
        = some (some m) ∧
      (∀ k : String, k ≠ name →
        (AddSQLiteDatabase s name storeType ns secrets configMaps opts).1.SQLiteDatabases.get? k
          = s.SQLiteDatabases.get? k) ∧
      (AddSQLiteDatabase s name storeType ns secrets configMaps opts).1.SQLiteDatabases.len
        = s.SQLiteDatabases.len + 1) := by
  constructor
  · intro h
    have hl : (initialised s.KeyValueStores).lookup name = none := by
      rw [initialised_lookup]
      simpa [GoMap.contains] using h
    rw [AddKeyValueStore_ok h hm]
    refine ⟨rfl, Finmap.lookup_insert _, fun k hk => ?_, ?_⟩
    · exact (Finmap.lookup_insert_of_ne _ hk).trans (initialised_lookup _ k)
    · exact (len_insert_of_lookup_none _ hl).trans (congrArg (· + 1) (initialised_len _))
  · intro h
    have hl : (initialised s.SQLiteDatabases).lookup name = none := by
      rw [initialised_lookup]
      simpa [GoMap.contains] using h
    rw [AddSQLiteDatabase_ok h hm]
    refine ⟨rfl, Finmap.lookup_insert _, fun k hk => ?_, ?_⟩
    · exact (Finmap.lookup_insert_of_ne _ hk).trans (initialised_lookup _ k)
    · exact (len_insert_of_lookup_none _ hl).trans (congrArg (· + 1) (initialised_len _))

/-- Witness of C3: the store `sessions` added next to `cache`, and the database
`audit` added to a registry whose database mapping is nil. -/
theorem C3_insert_fresh_name_witness :
    renderOptionsIntoMap "redis" "ns1" [optSecretRef "password" "db-secret" "pw"] secretsEx
        configMapsEx
      = .returns (some ((Finmap.singleton "type" "redis").insert "password" "s3cr3t"), none) ∧
    (spinEx.KeyValueStores.contains "sessions" = false ∧
      (AddKeyValueStore spinEx "sessions" "redis" "ns1" secretsEx configMapsEx
        [optSecretRef "password" "db-secret" "pw"]).1.KeyValueStores.len = 1 + 1) ∧
    (spinEx.SQLiteDatabases.contains "audit" = false ∧
      (AddSQLiteDatabase spinEx "audit" "redis" "ns1" secretsEx configMapsEx
        [optSecretRef "password" "db-secret" "pw"]).1.SQLiteDatabases.len = 0 + 1) :=
  ⟨by decide,
    ⟨by decide,
      ((C3_insert_fresh_name spinEx "sessions" "redis" "ns1" secretsEx configMapsEx
        [optSecretRef "password" "db-secret" "pw"]
        ((Finmap.singleton "type" "redis").insert "password" "s3cr3t") (by decide)).1 (by decide)).2.2.2⟩,
    ⟨by decide,
      ((C3_insert_fresh_name spinEx "audit" "redis" "ns1" secretsEx configMapsEx
        [optSecretRef "password" "db-secret" "pw"]
        ((Finmap.singleton "type" "redis").insert "password" "s3cr3t") (by decide)).2 (by decide)).2.2.2⟩⟩

/-! ## The resolver: failure -/

/-- C4, as stated, fails on a snapshot that holds a nil pointer.  Each option of
the list carries one form; the second carries no literal and references the
secret object `absent-secret`, which is not a key of the secret snapshot.  The
first option references the config object `nil-config`, whose key holds the nil
pointer: the comma-ok test of line 112 succeeds and line 117 reads a field
through the nil pointer, so the call panics and returns neither an error nor a
map. -/
theorem C4_counterexample :
    (∀ o ∈ [optConfigRef "region" "nil-config" "region",
        optSecretRef "password" "absent-secret" "pw"], atMostOneForm o) ∧
    (optSecretRef "password" "absent-secret" "pw").Value = "" ∧
    (optSecretRef "password" "absent-secret" "pw").ValueFrom.SecretKeyRef
      = some { Name := "absent-secret", Key := "pw" } ∧
    secretsEx.contains { Name := "absent-secret", Namespace := "ns1" } = false ∧
    configMapsNil.contains { Name := "nil-config", Namespace := "ns1" } = true ∧
    renderValue "ns1" (optConfigRef "region" "nil-config" "region") secretsEx configMapsNil
      = .panic ∧
    renderOptionsIntoMap "redis" "ns1"
      [optConfigRef "region" "nil-config" "region",
        optSecretRef "password" "absent-secret" "pw"] secretsEx configMapsNil = .panics := by
  refine ⟨by decide, rfl, rfl, by decide, by decide, by decide, by decide⟩

/-- C4, amended: in an option list whose options each carry at most one of a
literal, a config reference and a secret reference, an option without a literal
whose config object (resp. secret object) is not a key of the config snapshot
(resp. secret snapshot) under the namespace of the call makes
`renderOptionsIntoMap` return no map: the call returns an error and the nil map,
or it panics; and when no key of the snapshots holds a nil pointer it returns an
error and the nil map. -/
theorem C4_missing_object_no_partial_map (typeOpt ns : String)
    (opts : List RuntimeConfigOption)
    (secrets : GoMap NamespacedName (Ptr Secret))
    (configMaps : GoMap NamespacedName (Ptr ConfigMap))
    (hone : ∀ o ∈ opts, atMostOneForm o)
    (o : RuntimeConfigOption) (ho : o ∈ opts) (hlit : o.Value = "")
    (hmiss :
      (∃ r, o.ValueFrom.ConfigMapKeyRef = some r ∧
        configMaps.contains { Name := r.Name, Namespace := ns } = false) ∨
      (∃ r, o.ValueFrom.SecretKeyRef = some r ∧
        secrets.contains { Name := r.Name, Namespace := ns } = false)) :
    ((∃ e, renderOptionsIntoMap typeOpt ns opts secrets configMaps = .returns (none, some e)) ∨
      renderOptionsIntoMap typeOpt ns opts secrets configMaps = .panics) ∧
    (noNilEntry secrets → noNilEntry configMaps →
      ∃ e, renderOptionsIntoMap typeOpt ns opts secrets configMaps
        = .returns (none, some e)) := by
  have herr : ∃ e, renderValue ns o secrets configMaps = .error e := by
    rcases hmiss with ⟨r, hr, hc⟩ | ⟨r, hr, hc⟩
    · refine ⟨errConfigMapNotFound ns r.Name, ?_⟩
      rw [renderValue_configRef secrets configMaps hlit hr, get?_eq_none_of_contains hc]
    · have hcm : o.ValueFrom.ConfigMapKeyRef = none := by
        by_contra hne
        have := (hone o ho).2 hne
        rw [this] at hr
        cases hr
      refine ⟨errSecretNotFound ns r.Name, ?_⟩
      rw [renderValue_secretRef secrets configMaps hlit hcm hr, get?_eq_none_of_contains hc]
  obtain ⟨e, he⟩ := herr
  have hcases := renderLoop_error_of_mem ho he (Finmap.singleton "type" typeOpt)
  refine ⟨hcases, fun hs hc => ?_⟩
  rcases hcases with h | hp
  · exact h
  · exact absurd hp
      (renderLoop_ne_panics (fun x _ => renderValue_ne_panic hs hc x) _)

/-- Witness of C4, amended: the second option references a secret object that
the snapshot holds under another name only; the entries of the first option are
not returned. -/
theorem C4_missing_object_no_partial_map_witness :
    (∀ o ∈ [optLiteral "url" "redis://cache", optSecretRef "password" "other-secret" "pw"],
      atMostOneForm o) ∧
    noNilEntry secretsEx ∧ noNilEntry configMapsEx ∧
    renderOptionsIntoMap "redis" "ns1"
      [optLiteral "url" "redis://cache", optSecretRef "password" "other-secret" "pw"]
      secretsEx configMapsEx
      = .returns
        (none, some "unmet dependency while building config: secret (ns1/other-secret) not found") ∧
    ∃ e, renderOptionsIntoMap "redis" "ns1"
      [optLiteral "url" "redis://cache", optSecretRef "password" "other-secret" "pw"]
      secretsEx configMapsEx = .returns (none, some e) :=
  ⟨by decide, by decide, by decide, by decide,
    (C4_missing_object_no_partial_map "redis" "ns1"
      [optLiteral "url" "redis://cache", optSecretRef "password" "other-secret" "pw"]
      secretsEx configMapsEx (by decide) (optSecretRef "password" "other-secret" "pw")
      (by decide) rfl (Or.inr ⟨{ Name := "other-secret", Key := "pw" }, rfl, by decide⟩)).2
      (by decide) (by decide)⟩

/-! ## The resolver: resolved values -/

/-- C5: after a call of `renderOptionsIntoMap` that returns the map `m` and no
error, an option of the list that carries a non-empty literal, no config
reference and no secret reference, and that no later option of the list shares
its name with, has its literal as the entry under its name, for every pair of
snapshots. -/
theorem C5_literal_value_exact (typeOpt ns : String)
    (pre post : List RuntimeConfigOption) (o : RuntimeConfigOption)
    (secrets : GoMap NamespacedName (Ptr Secret))
    (configMaps : GoMap NamespacedName (Ptr ConfigMap))
    (m : Finmap (fun _ : String => String))
    (hm : renderOptionsIntoMap typeOpt ns (pre ++ o :: post) secrets configMaps = .returns (some m, none))
    (hlit : o.Value ≠ "")
    (_hcm : o.ValueFrom.ConfigMapKeyRef = none) (_hsec : o.ValueFrom.SecretKeyRef = none)
    (hpost : ∀ o' ∈ post, o'.Name ≠ o.Name) :
    m.lookup o.Name = some o.Value := by
  obtain ⟨v, hv, hlook⟩ := renderLoop_lookup_last hm hpost
  rw [renderValue_literal secrets configMaps hlit] at hv
  cases hv
  exact hlook

/-- Witness of C5: the literal `redis://cache` of the option `url`, which an
earlier option of the same name does not change. -/
theorem C5_literal_value_exact_witness :
    renderOptionsIntoMap "redis" "ns1"
      ([optConfigRef "url" "app-config" "region"] ++ optLiteral "url" "redis://cache" ::
        [optSecretRef "password" "db-secret" "pw"]) secretsEx configMapsEx
      = .returns (some mapUrlPassword, none) ∧
    mapUrlPassword.lookup "url" = some "redis://cache" :=
  ⟨by decide,
    C5_literal_value_exact "redis" "ns1" [optConfigRef "url" "app-config" "region"]
      [optSecretRef "password" "db-secret" "pw"] (optLiteral "url" "redis://cache")
      secretsEx configMapsEx mapUrlPassword (by decide) (by decide) rfl rfl (by decide)⟩

/-- C6: after a call of `renderOptionsIntoMap` with namespace `ns` that returns
the map `m` and no error, an option of the list that carries no literal,
references the key `k` of the config object `n`, and that no later option of the
list shares its name with, has the text `v` as the entry under its name when the
config snapshot holds at `(ns, n)` an object whose data holds `v` under `k`. -/
theorem C6_config_reference_value (typeOpt ns : String)
    (pre post : List RuntimeConfigOption) (o : RuntimeConfigOption)
    (secrets : GoMap NamespacedName (Ptr Secret))
    (configMaps : GoMap NamespacedName (Ptr ConfigMap))
    (m : Finmap (fun _ : String => String))
    (hm : renderOptionsIntoMap typeOpt ns (pre ++ o :: post) secrets configMaps = .returns (some m, none))
    (hlit : o.Value = "")
    (n k : String) (href : o.ValueFrom.ConfigMapKeyRef = some { Name := n, Key := k })
    (hpost : ∀ o' ∈ post, o'.Name ≠ o.Name)
    (cm : ConfigMap) (v : String)
    (hobj : configMaps.get? { Name := n, Namespace := ns } = some (some cm))
    (hkey : cm.Data.get? k = some v) :
    m.lookup o.Name = some v := by
  obtain ⟨w, hw, hlook⟩ := renderLoop_lookup_last hm hpost
  rw [renderValue_configRef secrets configMaps hlit href] at hw
  simp only [hobj, hkey, Option.getD_some] at hw
  cases hw
  exact hlook

/-- Witness of C6: the option `region` read from the key `region` of the config
object `app-config`. -/
theorem C6_config_reference_value_witness :
    renderOptionsIntoMap "redis" "ns1"
      ([optLiteral "url" "redis://cache"] ++ optConfigRef "region" "app-config" "region" :: [])
      secretsEx configMapsEx
      = .returns (some mapUrlRegion, none) ∧
    mapUrlRegion.lookup "region" = some "eu-west" :=
  ⟨by decide,
    C6_config_reference_value "redis" "ns1" [optLiteral "url" "redis://cache"] []
      (optConfigRef "region" "app-config" "region") secretsEx configMapsEx mapUrlRegion
      (by decide) rfl "app-config" "region" rfl (by decide)
      { Data := some (Finmap.singleton "region" "eu-west") } "eu-west" rfl rfl⟩

/-- C7: after a call of `renderOptionsIntoMap` with namespace `ns` that returns
the map `m` and no error, an option of the list that carries no literal and no
config reference, references the key `k` of the secret object `n`, and that no
later option of the list shares its name with, has the text of the bytes `b` as
the entry under its name when the secret snapshot holds at `(ns, n)` an object
whose data holds `b` under `k`.  The scenario: type `postgres`, namespace `ns1`,
the option `password` referencing the key `pw` of the secret `db-secret`, whose
content is `s3cr3t`, resolves to exactly the map with `type` = `postgres` and
`password` = `s3cr3t`, whatever the config snapshot. -/
theorem C7_secret_reference_value :
    (∀ (typeOpt ns : String) (pre post : List RuntimeConfigOption) (o : RuntimeConfigOption)
      (secrets : GoMap NamespacedName (Ptr Secret))
    (configMaps : GoMap NamespacedName (Ptr ConfigMap))
      (m : Finmap (fun _ : String => String)) (n k : String) (sec : Secret) (b : Bytes),
      renderOptionsIntoMap typeOpt ns (pre ++ o :: post) secrets configMaps = .returns (some m, none) →
      o.Value = "" →
      o.ValueFrom.ConfigMapKeyRef = none →
      o.ValueFrom.SecretKeyRef = some { Name := n, Key := k } →
      (∀ o' ∈ post, o'.Name ≠ o.Name) →
      secrets.get? { Name := n, Namespace := ns } = some (some sec) →
      sec.Data.get? k = some b →
      m.lookup o.Name = some b.toGoString) ∧
    (∀ configMaps : GoMap NamespacedName (Ptr ConfigMap),
      renderOptionsIntoMap "postgres" "ns1" [optSecretRef "password" "db-secret" "pw"]
        secretsEx configMaps = .returns (some mapPostgres, none)) ∧
    (∀ k : String, mapPostgres.lookup k
      = if k = "password" then some "s3cr3t" else if k = "type" then some "postgres"
        else none) := by
  refine ⟨?_, ?_, ?_⟩
  · intro typeOpt ns pre post o secrets configMaps m n k sec b hm hlit hcm href hpost hobj hkey
    obtain ⟨w, hw, hlook⟩ := renderLoop_lookup_last hm hpost
    rw [renderValue_secretRef secrets configMaps hlit hcm href] at hw
    simp only [hobj, hkey] at hw
    cases hw
    exact hlook
  · intro configMaps
    rfl
  · intro k
    by_cases h1 : k = "password"
    · subst h1
      simp [mapPostgres, Finmap.lookup_insert]
    · by_cases h2 : k = "type"
      · subst h2
        rw [mapPostgres, Finmap.lookup_insert_of_ne _ h1, Finmap.lookup_singleton_eq]
        simp
      · rw [mapPostgres, Finmap.lookup_insert_of_ne _ h1, if_neg h1, if_neg h2,
          Finmap.lookup_eq_none, Finmap.mem_singleton]
        exact h2

/-- Witness of C7: the scenario, through the general statement. -/
theorem C7_secret_reference_value_witness :
    renderOptionsIntoMap "postgres" "ns1"
      ([] ++ optSecretRef "password" "db-secret" "pw" :: []) secretsEx configMapsEx
      = .returns (some mapPostgres, none) ∧
    mapPostgres.lookup "password" = some "s3cr3t" :=
  ⟨by decide,
    C7_secret_reference_value.1 "postgres" "ns1" [] []
      (optSecretRef "password" "db-secret" "pw") secretsEx configMapsEx mapPostgres
      "db-secret" "pw" { Data := some (Finmap.singleton "pw" { text := "s3cr3t" }) }
      { text := "s3cr3t" } (by decide) rfl rfl rfl (by decide) rfl rfl⟩

/-! ## The resolver: silent empty values -/

/-- C8, as stated, fails for the secret half on an option that carries both
references.  The option `optBoth` carries no literal and references the secret
object `db-secret`, which the snapshot holds at `(ns1, db-secret)` and whose
data has no key `token`; it resolves to `eu-west`, read through its config
reference, and not to the empty string.  The option `optBothMissing` has the
same secret reference and a config reference to an object the snapshot does not
hold: resolving it raises the error of the config lookup. -/
theorem C8_counterexample :
    (optBoth.Value = "" ∧
      optBoth.ValueFrom.SecretKeyRef = some { Name := "db-secret", Key := "token" } ∧
      (secretsEx.get? { Name := "db-secret", Namespace := "ns1" }).map
        (fun p => p.map (fun sec => sec.Data.contains "token")) = some (some false) ∧
      renderValue "ns1" optBoth secretsEx configMapsEx = .ok "eu-west" ∧
      renderOptionsIntoMap "redis" "ns1" [optBoth] secretsEx configMapsEx
        = .returns (some ((Finmap.singleton "type" "redis").insert "password" "eu-west"), none) ∧
      renderOptionsIntoMap "redis" "ns1" [optBoth] secretsEx configMapsEx
        ≠ .returns (some ((Finmap.singleton "type" "redis").insert "password" ""), none)) ∧
    (optBothMissing.Value = "" ∧
      optBothMissing.ValueFrom.SecretKeyRef = some { Name := "db-secret", Key := "token" } ∧
      renderValue "ns1" optBothMissing secretsEx configMapsEx
        = .error "unmet dependency while building config: configmap (ns1/missing) not found" ∧
      renderOptionsIntoMap "redis" "ns1" [optBothMissing] secretsEx configMapsEx
        = .returns
          (none, some "unmet dependency while building config: configmap (ns1/missing) not found")) := by
  refine ⟨⟨rfl, rfl, by decide, rfl, by decide, by decide⟩, ⟨rfl, rfl, rfl, by decide⟩⟩

/-- C8, amended: an option that carries no literal and references a config
object, or that carries no literal and no config reference and references a
secret object, where the object is in the snapshot at the namespace of the call
and the referenced name and its data does not contain the referenced key,
resolves without error to the empty string; the list of that one option makes
`renderOptionsIntoMap` return no error and the map that holds the type and the
empty string under the name of the option. -/
theorem C8_missing_key_is_empty (typeOpt ns : String) (o : RuntimeConfigOption)
    (secrets : GoMap NamespacedName (Ptr Secret))
    (configMaps : GoMap NamespacedName (Ptr ConfigMap))
    (hlit : o.Value = "") :
    (∀ (r : ConfigMapKeySelector) (cm : ConfigMap),
      o.ValueFrom.ConfigMapKeyRef = some r →
      configMaps.get? { Name := r.Name, Namespace := ns } = some (some cm) →
      cm.Data.contains r.Key = false →
      renderValue ns o secrets configMaps = .ok "" ∧
      renderOptionsIntoMap typeOpt ns [o] secrets configMaps
        = .returns (some ((Finmap.singleton "type" typeOpt).insert o.Name ""), none) ∧
      Finmap.lookup o.Name
        ((Finmap.singleton "type" typeOpt).insert o.Name "" : Finmap (fun _ : String => String))
        = some "") ∧
    (∀ (r : SecretKeySelector) (sec : Secret),
      o.ValueFrom.ConfigMapKeyRef = none →
      o.ValueFrom.SecretKeyRef = some r →
      secrets.get? { Name := r.Name, Namespace := ns } = some (some sec) →
      sec.Data.contains r.Key = false →
      renderValue ns o secrets configMaps = .ok "" ∧
      renderOptionsIntoMap typeOpt ns [o] secrets configMaps
        = .returns (some ((Finmap.singleton "type" typeOpt).insert o.Name ""), none) ∧
      Finmap.lookup o.Name
        ((Finmap.singleton "type" typeOpt).insert o.Name "" : Finmap (fun _ : String => String))
        = some "") := by
  constructor
  · intro r cm href hobj hkey
    have hv : renderValue ns o secrets configMaps = .ok "" := by
      rw [renderValue_configRef secrets configMaps hlit href]
      simp only [hobj, get?_eq_none_of_contains hkey, Option.getD_none]
    refine ⟨hv, ?_, Finmap.lookup_insert _⟩
    rw [renderOptionsIntoMap, renderLoop_cons_ok hv, renderLoop]
  · intro r sec hcm href hobj hkey
    have hv : renderValue ns o secrets configMaps = .ok "" := by
      rw [renderValue_secretRef secrets configMaps hlit hcm href]
      simp only [hobj, get?_eq_none_of_contains hkey]
    refine ⟨hv, ?_, Finmap.lookup_insert _⟩
    rw [renderOptionsIntoMap, renderLoop_cons_ok hv, renderLoop]

/-- Witness of C8, amended: the key `zone`, which the config object `app-config`
does not hold, and the key `token`, which the secret object `db-secret` does not
hold. -/
theorem C8_missing_key_is_empty_witness :
    renderOptionsIntoMap "redis" "ns1" [optConfigRef "zone" "app-config" "zone"] secretsEx
        configMapsEx
      = .returns (some ((Finmap.singleton "type" "redis").insert "zone" ""), none) ∧
    renderOptionsIntoMap "redis" "ns1" [optSecretRef "token" "db-secret" "token"] secretsEx
        configMapsEx
      = .returns (some ((Finmap.singleton "type" "redis").insert "token" ""), none) :=
  ⟨((C8_missing_key_is_empty "redis" "ns1" (optConfigRef "zone" "app-config" "zone") secretsEx
      configMapsEx rfl).1 { Name := "app-config", Key := "zone" }
      { Data := some (Finmap.singleton "region" "eu-west") } rfl rfl (by decide)).2.1,
    ((C8_missing_key_is_empty "redis" "ns1" (optSecretRef "token" "db-secret" "token") secretsEx
      configMapsEx rfl).2 { Name := "db-secret", Key := "token" }
      { Data := some (Finmap.singleton "pw" { text := "s3cr3t" }) } rfl rfl rfl
      (by decide)).2.1⟩

/-- C9: on an option list all of whose options carry neither a literal nor a
reference, `renderOptionsIntoMap` returns a map and no error for every type,
namespace and pair of snapshots, the nil snapshots included, and the map holds
the empty string under the name of every option of the list. -/
theorem C9_bare_options_resolve_empty (typeOpt ns : String)
    (opts : List RuntimeConfigOption)
    (secrets : GoMap NamespacedName (Ptr Secret))
    (configMaps : GoMap NamespacedName (Ptr ConfigMap))
    (hbare : ∀ o ∈ opts, o.Value = "" ∧ o.ValueFrom.ConfigMapKeyRef = none ∧
      o.ValueFrom.SecretKeyRef = none) :
    ∃ m : Finmap (fun _ : String => String),
      renderOptionsIntoMap typeOpt ns opts secrets configMaps = .returns (some m, none) ∧
      ∀ o ∈ opts, m.lookup o.Name = some "" := by
  have hall : ∀ (l : List RuntimeConfigOption) (acc : Finmap (fun _ : String => String)),
      (∀ o ∈ l, o.Value = "" ∧ o.ValueFrom.ConfigMapKeyRef = none ∧
        o.ValueFrom.SecretKeyRef = none) →
      ∃ m, renderLoop ns secrets configMaps l acc = .returns (some m, none) := by
    intro l
    induction l with
    | nil => intro acc _; exact ⟨acc, rfl⟩
    | cons a rest ih =>
      intro acc hl
      obtain ⟨h1, h2, h3⟩ := hl a (List.mem_cons_self _ _)
      rw [renderLoop_cons_ok (renderValue_bare secrets configMaps h1 h2 h3)]
      exact ih _ (fun o ho => hl o (List.mem_cons_of_mem _ ho))
  obtain ⟨m, hm⟩ := hall opts (Finmap.singleton "type" typeOpt) hbare
  refine ⟨m, hm, fun o ho => ?_⟩
  obtain ⟨o', ho', _, v, hv, hlook⟩ := renderLoop_lookup_mem hm ho
  obtain ⟨h1, h2, h3⟩ := hbare o' ho'
  rw [renderValue_bare secrets configMaps h1 h2 h3] at hv
  cases hv
  exact hlook

/-- Witness of C9: two bare options and nil snapshots. -/
theorem C9_bare_options_resolve_empty_witness :
    ∃ m : Finmap (fun _ : String => String),
      renderOptionsIntoMap "redis" "ns1" [optBare "url", optBare "region"] none none
        = .returns (some m, none) ∧
      ∀ o ∈ [optBare "url", optBare "region"], m.lookup o.Name = some "" :=
  C9_bare_options_resolve_empty "redis" "ns1" [optBare "url", optBare "region"] none none
    (by decide)

/-! ## The resolver: the type entry -/

/-- C10: a map that `renderOptionsIntoMap` returns without error for the
resource type `typeOpt` contains the key `type`.  Its value is `typeOpt` when no
option of the list is named `type`, and otherwise it is the value the last
option named `type` resolves to.  The empty option list resolves to exactly the
map that holds `typeOpt` under `type`. -/
theorem C10_type_entry (typeOpt ns : String) (opts : List RuntimeConfigOption)
    (secrets : GoMap NamespacedName (Ptr Secret))
    (configMaps : GoMap NamespacedName (Ptr ConfigMap)) :
    (∀ m : Finmap (fun _ : String => String),
      renderOptionsIntoMap typeOpt ns opts secrets configMaps = .returns (some m, none) →
      "type" ∈ m ∧
      ((∀ o ∈ opts, o.Name ≠ "type") → m.lookup "type" = some typeOpt) ∧
      (∀ (pre : List RuntimeConfigOption) (o : RuntimeConfigOption)
        (post : List RuntimeConfigOption),
        opts = pre ++ o :: post → o.Name = "type" → (∀ o' ∈ post, o'.Name ≠ "type") →
        ∃ v, renderValue ns o secrets configMaps = .ok v ∧ m.lookup "type" = some v)) ∧
    renderOptionsIntoMap typeOpt ns [] secrets configMaps
      = .returns (some (Finmap.singleton "type" typeOpt), none) := by
  refine ⟨fun m hm => ?_, rfl⟩
  have hdefault : (∀ o ∈ opts, o.Name ≠ "type") → m.lookup "type" = some typeOpt := by
    intro hno
    rw [renderLoop_lookup_of_not_mem hm hno]
    exact Finmap.lookup_singleton_eq
  have hlast : ∀ (pre : List RuntimeConfigOption) (o : RuntimeConfigOption)
      (post : List RuntimeConfigOption),
      opts = pre ++ o :: post → o.Name = "type" → (∀ o' ∈ post, o'.Name ≠ "type") →
      ∃ v, renderValue ns o secrets configMaps = .ok v ∧ m.lookup "type" = some v := by
    intro pre o post hsplit hname hpost
    subst hsplit
    obtain ⟨v, hv, hlook⟩ :=
      renderLoop_lookup_last hm (fun x hx => by rw [hname]; exact hpost x hx)
    exact ⟨v, hv, by rw [← hname]; exact hlook⟩
  refine ⟨?_, hdefault, hlast⟩
  by_cases hex : ∃ o ∈ opts, o.Name = "type"
  · obtain ⟨pre, o, post, hsplit, hname, hpost⟩ := exists_last_named opts "type" hex
    obtain ⟨v, _, hlook⟩ := hlast pre o post hsplit hname hpost
    exact Finmap.mem_of_lookup_eq_some hlook
  · have hno : ∀ o ∈ opts, o.Name ≠ "type" := fun o ho hn => hex ⟨o, ho, hn⟩
    exact Finmap.mem_of_lookup_eq_some (hdefault hno)

/-- Witness of C10: a resource of type `postgres` whose options name `type`
twice; the entry is the literal of the second one, `sqlite`. -/
theorem C10_type_entry_witness :
    renderOptionsIntoMap "postgres" "ns1"
      [optLiteral "type" "mysql", optLiteral "url" "db://x", optLiteral "type" "sqlite"]
      secretsEx configMapsEx = .returns (some mapTypeOverridden, none) ∧
    (∃ v, renderValue "ns1" (optLiteral "type" "sqlite") secretsEx configMapsEx = .ok v ∧
      mapTypeOverridden.lookup "type" = some v) ∧
    mapTypeOverridden.lookup "type" = some "sqlite" :=
  ⟨by decide,
    ((C10_type_entry "postgres" "ns1"
      [optLiteral "type" "mysql", optLiteral "url" "db://x", optLiteral "type" "sqlite"]
      secretsEx configMapsEx).1 mapTypeOverridden (by decide)).2.2
      [optLiteral "type" "mysql", optLiteral "url" "db://x"] (optLiteral "type" "sqlite") []
      rfl rfl (by decide),
    by decide⟩

/-! ## More lemmas on the registry -/

/-- A resolution without error: the compute-backend map is replaced by the
resolved map. -/
theorem AddLLMCompute_ok {s : Spin} {computeType ns : String}
    {secrets : GoMap NamespacedName (Ptr Secret)}
    {configMaps : GoMap NamespacedName (Ptr ConfigMap)}
    {opts : List RuntimeConfigOption} {r : GoMap String String}
    (hr : renderOptionsIntoMap computeType ns opts secrets configMaps = .returns (r, none)) :
    AddLLMCompute s computeType ns secrets configMaps opts
      = ({ s with LLMCompute := r }, .returns none) := by
  simp only [AddLLMCompute, hr]

/-- A failing resolution: the call returns the resolver's error and the registry
before the call. -/
theorem AddLLMCompute_error {s : Spin} {computeType ns : String}
    {secrets : GoMap NamespacedName (Ptr Secret)}
    {configMaps : GoMap NamespacedName (Ptr ConfigMap)}
    {opts : List RuntimeConfigOption} {r : GoMap String String} {e : String}
    (he : renderOptionsIntoMap computeType ns opts secrets configMaps = .returns (r, some e)) :
    AddLLMCompute s computeType ns secrets configMaps opts = (s, .returns (some e)) := by
  simp only [AddLLMCompute, he]

/-- A resolution that panics: the call panics and leaves the registry as it
was. -/
theorem AddLLMCompute_panics {s : Spin} {computeType ns : String}
    {secrets : GoMap NamespacedName (Ptr Secret)}
    {configMaps : GoMap NamespacedName (Ptr ConfigMap)}
    {opts : List RuntimeConfigOption}
    (hp : renderOptionsIntoMap computeType ns opts secrets configMaps = .panics) :
    AddLLMCompute s computeType ns secrets configMaps opts = (s, .panics) := by
  simp only [AddLLMCompute, hp]

/-- The insertion of a store writes the key/value store mapping only, on every outcome of
the call. -/
theorem AddKeyValueStore_frame (s : Spin) (name storeType ns : String)
    (secrets : GoMap NamespacedName (Ptr Secret))
    (configMaps : GoMap NamespacedName (Ptr ConfigMap))
    (opts : List RuntimeConfigOption) :
    (AddKeyValueStore s name storeType ns secrets configMaps opts).1.Variables = s.Variables ∧
    (AddKeyValueStore s name storeType ns secrets configMaps opts).1.SQLiteDatabases
      = s.SQLiteDatabases ∧
    (AddKeyValueStore s name storeType ns secrets configMaps opts).1.LLMCompute
      = s.LLMCompute := by
  cases hc : s.KeyValueStores.contains name with
  | true => rw [AddKeyValueStore_duplicate hc]; exact ⟨rfl, rfl, rfl⟩
  | false =>
    cases hr : renderOptionsIntoMap storeType ns opts secrets configMaps with
    | panics => rw [AddKeyValueStore_panics hc hr]; exact ⟨rfl, rfl, rfl⟩
    | returns p =>
      obtain ⟨r, e⟩ := p
      cases e with
      | none => rw [AddKeyValueStore_ok hc hr]; exact ⟨rfl, rfl, rfl⟩
      | some e => rw [AddKeyValueStore_error hc hr]; exact ⟨rfl, rfl, rfl⟩

/-- The insertion of a database writes the database mapping only, on every outcome of
the call. -/
theorem AddSQLiteDatabase_frame (s : Spin) (name storeType ns : String)
    (secrets : GoMap NamespacedName (Ptr Secret))
    (configMaps : GoMap NamespacedName (Ptr ConfigMap))
    (opts : List RuntimeConfigOption) :
    (AddSQLiteDatabase s name storeType ns secrets configMaps opts).1.Variables = s.Variables ∧
    (AddSQLiteDatabase s name storeType ns secrets configMaps opts).1.KeyValueStores
      = s.KeyValueStores ∧
    (AddSQLiteDatabase s name storeType ns secrets configMaps opts).1.LLMCompute
      = s.LLMCompute := by
  cases hc : s.SQLiteDatabases.contains name with
  | true => rw [AddSQLiteDatabase_duplicate hc]; exact ⟨rfl, rfl, rfl⟩
  | false =>
    cases hr : renderOptionsIntoMap storeType ns opts secrets configMaps with
    | panics => rw [AddSQLiteDatabase_panics hc hr]; exact ⟨rfl, rfl, rfl⟩
    | returns p =>
      obtain ⟨r, e⟩ := p
      cases e with
      | none => rw [AddSQLiteDatabase_ok hc hr]; exact ⟨rfl, rfl, rfl⟩
      | some e => rw [AddSQLiteDatabase_error hc hr]; exact ⟨rfl, rfl, rfl⟩

/-- Setting the compute backend writes the compute-backend map only, and the
outcome of the call is the outcome of the resolver, with the resolver's error. -/
theorem AddLLMCompute_frame (s : Spin) (computeType ns : String)
    (secrets : GoMap NamespacedName (Ptr Secret))
    (configMaps : GoMap NamespacedName (Ptr ConfigMap))
    (opts : List RuntimeConfigOption) :
    (AddLLMCompute s computeType ns secrets configMaps opts).1.Variables = s.Variables ∧
    (AddLLMCompute s computeType ns secrets configMaps opts).1.KeyValueStores
      = s.KeyValueStores ∧
    (AddLLMCompute s computeType ns secrets configMaps opts).1.SQLiteDatabases
      = s.SQLiteDatabases ∧
    (AddLLMCompute s computeType ns secrets configMaps opts).2
      = (renderOptionsIntoMap computeType ns opts secrets configMaps).map Prod.snd := by
  cases hr : renderOptionsIntoMap computeType ns opts secrets configMaps with
  | panics => rw [AddLLMCompute_panics hr]; exact ⟨rfl, rfl, rfl, rfl⟩
  | returns p =>
    obtain ⟨r, e⟩ := p
    cases e with
    | none => rw [AddLLMCompute_ok hr]; exact ⟨rfl, rfl, rfl, rfl⟩
    | some e => rw [AddLLMCompute_error hr]; exact ⟨rfl, rfl, rfl, rfl⟩

/-! ## The compute backend -/

/-- C11: two calls of `AddLLMCompute` in sequence whose options resolve to the
maps `m1` and then `m2` both return no error, and the compute-backend map of the
registry after the second call is exactly `m2`: the registry is the first one
with `m2` as its compute-backend map, and a key that `m2` does not hold is not
found in it, whether `m1` held it or not.  The outcome of a call of
`AddLLMCompute` is always the outcome of the resolver, with the error of the
resolver, so no duplicate error is raised for this kind. -/
theorem C11_llm_compute_replaced (s : Spin)
    (type1 ns1 : String) (secrets1 : GoMap NamespacedName (Ptr Secret))
    (configMaps1 : GoMap NamespacedName (Ptr ConfigMap)) (opts1 : List RuntimeConfigOption)
    (type2 ns2 : String) (secrets2 : GoMap NamespacedName (Ptr Secret))
    (configMaps2 : GoMap NamespacedName (Ptr ConfigMap)) (opts2 : List RuntimeConfigOption)
    (m1 m2 : Finmap (fun _ : String => String))
    (h1 : renderOptionsIntoMap type1 ns1 opts1 secrets1 configMaps1 = .returns (some m1, none))
    (h2 : renderOptionsIntoMap type2 ns2 opts2 secrets2 configMaps2 = .returns (some m2, none)) :
    (AddLLMCompute s type1 ns1 secrets1 configMaps1 opts1).2 = .returns none ∧
    (AddLLMCompute s type1 ns1 secrets1 configMaps1 opts1).1.LLMCompute = some m1 ∧
    AddLLMCompute (AddLLMCompute s type1 ns1 secrets1 configMaps1 opts1).1
        type2 ns2 secrets2 configMaps2 opts2
      = ({ s with LLMCompute := some m2 }, .returns none) ∧
    (∀ k : String, k ∉ m2 →
      (AddLLMCompute (AddLLMCompute s type1 ns1 secrets1 configMaps1 opts1).1
        type2 ns2 secrets2 configMaps2 opts2).1.LLMCompute.get? k = none) ∧
    (∀ (s' : Spin) (computeType ns : String) (secrets : GoMap NamespacedName (Ptr Secret))
      (configMaps : GoMap NamespacedName (Ptr ConfigMap)) (opts : List RuntimeConfigOption),
      (AddLLMCompute s' computeType ns secrets configMaps opts).2
        = (renderOptionsIntoMap computeType ns opts secrets configMaps).map Prod.snd) := by
  rw [AddLLMCompute_ok h1, AddLLMCompute_ok h2]
  refine ⟨rfl, rfl, rfl, fun k hk => ?_, fun s' computeType ns secrets configMaps opts => ?_⟩
  · exact Finmap.lookup_eq_none.mpr hk
  · exact (AddLLMCompute_frame s' computeType ns secrets configMaps opts).2.2.2

/-- Witness of C11: a backend of type `remote_http` with two options, then a
backend of type `spin` without options; `url` does not survive. -/
theorem C11_llm_compute_replaced_witness :
    renderOptionsIntoMap "remote_http" "ns1"
      [optLiteral "url" "http://llm", optSecretRef "auth_token" "db-secret" "pw"]
      secretsEx configMapsEx = .returns (some mapRemoteHttp, none) ∧
    renderOptionsIntoMap "spin" "ns1" [] none none = .returns (some mapSpin, none) ∧
    mapRemoteHttp.lookup "url" = some "http://llm" ∧
    AddLLMCompute (AddLLMCompute spinEx "remote_http" "ns1" secretsEx configMapsEx
        [optLiteral "url" "http://llm", optSecretRef "auth_token" "db-secret" "pw"]).1
        "spin" "ns1" none none []
      = ({ spinEx with LLMCompute := some mapSpin }, .returns none) :=
  ⟨by decide, by decide, by decide,
    (C11_llm_compute_replaced spinEx "remote_http" "ns1" secretsEx configMapsEx
      [optLiteral "url" "http://llm", optSecretRef "auth_token" "db-secret" "pw"]
      "spin" "ns1" none none [] mapRemoteHttp mapSpin (by decide) (by decide)).2.2.1⟩

/-- C12: when the resolver fails with the error `e` on the arguments of a call
of `AddLLMCompute`, the call returns `e` and the registry after the call is the
registry before it; in particular a compute-backend map set by an earlier call
is kept. -/
theorem C12_llm_compute_failure_keeps_registry (s : Spin) (computeType ns : String)
    (secrets : GoMap NamespacedName (Ptr Secret))
    (configMaps : GoMap NamespacedName (Ptr ConfigMap))
    (opts : List RuntimeConfigOption) (r : GoMap String String) (e : String)
    (he : renderOptionsIntoMap computeType ns opts secrets configMaps = .returns (r, some e)) :
    AddLLMCompute s computeType ns secrets configMaps opts = (s, .returns (some e)) ∧
    (AddLLMCompute s computeType ns secrets configMaps opts).1.LLMCompute = s.LLMCompute := by
  rw [AddLLMCompute_error he]
  exact ⟨rfl, rfl⟩

/-- Witness of C12: a registry whose compute backend is set, and a later call
whose option references a secret object missing from the snapshot. -/
theorem C12_llm_compute_failure_keeps_registry_witness :
    spinLlmEx.LLMCompute = some mapRemoteHttp ∧
    AddLLMCompute spinLlmEx "spin" "ns1" secretsEx configMapsEx
        [optLiteral "url" "http://other", optSecretRef "auth_token" "missing" "pw"]
      = (spinLlmEx, .returns
          (some "unmet dependency while building config: secret (ns1/missing) not found")) :=
  ⟨rfl,
    (C12_llm_compute_failure_keeps_registry spinLlmEx "spin" "ns1" secretsEx configMapsEx
      [optLiteral "url" "http://other", optSecretRef "auth_token" "missing" "pw"] none
      "unmet dependency while building config: secret (ns1/missing) not found" (by decide)).1⟩

/-! ## Duplicate detection per kind -/

/-- C13: a name that is a key of the key/value store mapping and not of the
database mapping can be given to a database: when the resolver returns the map
`m` without error, `AddSQLiteDatabase` returns no error, stores `m` under the
name and leaves the key/value store mapping as it was.  Symmetrically
`AddKeyValueStore` succeeds under a name that only the database mapping holds. -/
theorem C13_duplicates_are_per_kind (s : Spin) (name storeType ns : String)
    (secrets : GoMap NamespacedName (Ptr Secret))
    (configMaps : GoMap NamespacedName (Ptr ConfigMap))
    (opts : List RuntimeConfigOption) (m : Finmap (fun _ : String => String))
    (hm : renderOptionsIntoMap storeType ns opts secrets configMaps = .returns (some m, none)) :
    (s.KeyValueStores.contains name = true → s.SQLiteDatabases.contains name = false →
      (AddSQLiteDatabase s name storeType ns secrets configMaps opts).2 = .returns none ∧
      (AddSQLiteDatabase s name storeType ns secrets configMaps opts).1.SQLiteDatabases.get? name
        = some (some m) ∧
      (AddSQLiteDatabase s name storeType ns secrets configMaps opts).1.KeyValueStores
        = s.KeyValueStores) ∧
    (s.SQLiteDatabases.contains name = true → s.KeyValueStores.contains name = false →
      (AddKeyValueStore s name storeType ns secrets configMaps opts).2 = .returns none ∧
      (AddKeyValueStore s name storeType ns secrets configMaps opts).1.KeyValueStores.get? name
        = some (some m) ∧
      (AddKeyValueStore s name storeType ns secrets configMaps opts).1.SQLiteDatabases
        = s.SQLiteDatabases) := by
  constructor
  · intro _ hdb
    rw [AddSQLiteDatabase_ok hdb hm]
    exact ⟨rfl, Finmap.lookup_insert _, rfl⟩
  · intro _ hkv
    rw [AddKeyValueStore_ok hkv hm]
    exact ⟨rfl, Finmap.lookup_insert _, rfl⟩

/-- Witness of C13: a database named `cache` next to the store `cache`, and a
store named `default` next to the database `default`. -/
theorem C13_duplicates_are_per_kind_witness :
    (spinEx.KeyValueStores.contains "cache" = true ∧
      spinEx.SQLiteDatabases.contains "cache" = false ∧
      (AddSQLiteDatabase spinEx "cache" "spin" "ns1" none none []).2 = .returns none ∧
      (AddSQLiteDatabase spinEx "cache" "spin" "ns1" none none []).1.SQLiteDatabases.get? "cache"
        = some (some mapSpin)) ∧
    (spinDbEx.SQLiteDatabases.contains "default" = true ∧
      spinDbEx.KeyValueStores.contains "default" = false ∧
      (AddKeyValueStore spinDbEx "default" "spin" "ns1" none none []).2 = .returns none ∧
      (AddKeyValueStore spinDbEx "default" "spin" "ns1" none none []).1.KeyValueStores.get?
        "default" = some (some mapSpin)) :=
  ⟨⟨by decide, by decide,
      ((C13_duplicates_are_per_kind spinEx "cache" "spin" "ns1" none none [] mapSpin
        (by decide)).1 (by decide) (by decide)).1,
      ((C13_duplicates_are_per_kind spinEx "cache" "spin" "ns1" none none [] mapSpin
        (by decide)).1 (by decide) (by decide)).2.1⟩,
    ⟨by decide, by decide,
      ((C13_duplicates_are_per_kind spinDbEx "default" "spin" "ns1" none none [] mapSpin
        (by decide)).2 (by decide) (by decide)).1,
      ((C13_duplicates_are_per_kind spinDbEx "default" "spin" "ns1" none none [] mapSpin
        (by decide)).2 (by decide) (by decide)).2.1⟩⟩

/-! ## More lemmas on the resolver -/

/-- A key is absent from a map exactly when the comma-ok read finds nothing. -/
theorem contains_eq_false_iff {κ ν : Type} [DecidableEq κ] (m : GoMap κ ν) (k : κ) :
    m.contains k = false ↔ m.get? k = none := by
  simp [GoMap.contains]

/-- The errors of one option: the lookup of a config object or of a secret
object that the snapshot does not hold, with the message of that lookup. -/
theorem renderValue_error_iff (ns : String) (o : RuntimeConfigOption)
    (secrets : GoMap NamespacedName (Ptr Secret))
    (configMaps : GoMap NamespacedName (Ptr ConfigMap))
    (e : String) :
    renderValue ns o secrets configMaps = .error e ↔
      o.Value = "" ∧
      ((∃ r, o.ValueFrom.ConfigMapKeyRef = some r ∧
          configMaps.contains { Name := r.Name, Namespace := ns } = false ∧
          e = errConfigMapNotFound ns r.Name) ∨
       (o.ValueFrom.ConfigMapKeyRef = none ∧
          ∃ r, o.ValueFrom.SecretKeyRef = some r ∧
            secrets.contains { Name := r.Name, Namespace := ns } = false ∧
            e = errSecretNotFound ns r.Name)) := by
  by_cases hv : o.Value = ""
  · cases hcm : o.ValueFrom.ConfigMapKeyRef with
    | some r =>
      rw [renderValue_configRef secrets configMaps hv hcm]
      cases hobj : configMaps.get? { Name := r.Name, Namespace := ns } with
      | none =>
        constructor
        · intro h
          exact ⟨hv, Or.inl ⟨r, rfl, (contains_eq_false_iff _ _).mpr hobj,
            (Step.error.inj h).symm⟩⟩
        · rintro ⟨_, ⟨r', hr', _, he⟩ | ⟨hcm', _⟩⟩
          · cases hr'
            rw [he]
          · cases hcm'
      | some p =>
        constructor
        · intro h
          cases p <;> cases h
        · rintro ⟨_, ⟨r', hr', hc, _⟩ | ⟨hcm', _⟩⟩
          · cases hr'
            rw [contains_eq_false_iff, hobj] at hc
            cases hc
          · cases hcm'
    | none =>
      cases hsec : o.ValueFrom.SecretKeyRef with
      | some r =>
        rw [renderValue_secretRef secrets configMaps hv hcm hsec]
        cases hobj : secrets.get? { Name := r.Name, Namespace := ns } with
        | none =>
          constructor
          · intro h
            exact ⟨hv, Or.inr ⟨rfl, r, rfl, (contains_eq_false_iff _ _).mpr hobj,
              (Step.error.inj h).symm⟩⟩
          · rintro ⟨_, ⟨r', hr', _⟩ | ⟨_, r', hr', _, he⟩⟩
            · cases hr'
            · cases hr'
              rw [he]
        | some p =>
          constructor
          · intro h
            cases p <;> cases h
          · rintro ⟨_, ⟨r', hr', _⟩ | ⟨_, r', hr', hc, _⟩⟩
            · cases hr'
            · cases hr'
              rw [contains_eq_false_iff, hobj] at hc
              cases hc
      | none =>
        rw [renderValue_bare secrets configMaps hv hcm hsec]
        constructor
        · intro h
          cases h
        · rintro ⟨_, ⟨r', hr', _⟩ | ⟨_, r', hr', _⟩⟩
          · cases hr'
          · cases hr'
  · rw [renderValue_literal secrets configMaps hv]
    constructor
    · intro h
      cases h
    · rintro ⟨hv', _⟩
      exact absurd hv' hv

/-- The lookup of an option fails exactly when it misses its object. -/
theorem renderValue_error_iff_missing (ns : String) (o : RuntimeConfigOption)
    (secrets : GoMap NamespacedName (Ptr Secret))
    (configMaps : GoMap NamespacedName (Ptr ConfigMap)) :
    (∃ e, renderValue ns o secrets configMaps = .error e) ↔
      missingObject ns secrets configMaps o := by
  constructor
  · rintro ⟨e, he⟩
    obtain ⟨hv, h⟩ := (renderValue_error_iff ns o secrets configMaps e).mp he
    refine ⟨hv, ?_⟩
    rcases h with ⟨r, hr, hc, _⟩ | ⟨hcm, r, hr, hc, _⟩
    · exact Or.inl ⟨r, hr, hc⟩
    · exact Or.inr ⟨hcm, r, hr, hc⟩
  · rintro ⟨hv, h⟩
    rcases h with ⟨r, hr, hc⟩ | ⟨hcm, r, hr, hc⟩
    · exact ⟨_, (renderValue_error_iff ns o secrets configMaps _).mpr
        ⟨hv, Or.inl ⟨r, hr, hc, rfl⟩⟩⟩
    · exact ⟨_, (renderValue_error_iff ns o secrets configMaps _).mpr
        ⟨hv, Or.inr ⟨hcm, r, hr, hc, rfl⟩⟩⟩

/-- The error of a run is the error of the first visited option that has no
value; every option before it has one. -/
theorem renderLoop_first_error {ns : String} {secrets : GoMap NamespacedName (Ptr Secret)}
    {configMaps : GoMap NamespacedName (Ptr ConfigMap)} {opts : List RuntimeConfigOption}
    {acc : Finmap (fun _ : String => String)} {e : String}
    {r : GoMap String String}
    (h : renderLoop ns secrets configMaps opts acc = .returns (r, some e)) :
    ∃ pre o post, opts = pre ++ o :: post ∧
      (∀ x ∈ pre, ∃ v, renderValue ns x secrets configMaps = .ok v) ∧
      renderValue ns o secrets configMaps = .error e := by
  induction opts generalizing acc with
  | nil => simp [renderLoop] at h
  | cons a rest ih =>
    cases hv : renderValue ns a secrets configMaps with
    | error e' =>
      rw [renderLoop_cons_error hv] at h
      have he : e' = e := Option.some.inj (Prod.mk.inj (Outcome.returns.inj h)).2
      subst he
      exact ⟨[], a, rest, rfl, by simp, hv⟩
    | panic => rw [renderLoop_cons_panic hv] at h; cases h
    | ok v =>
      rw [renderLoop_cons_ok hv] at h
      obtain ⟨pre, o, post, hsplit, hpre, ho⟩ := ih h
      refine ⟨a :: pre, o, post, by rw [hsplit, List.cons_append], ?_, ho⟩
      intro x hx
      rcases List.mem_cons.mp hx with rfl | hmem
      · exact ⟨v, hv⟩
      · exact hpre x hmem

/-- Snapshots that agree on the namespace of the call give every option the
same value, the same error or the same panic. -/
theorem renderValue_congr {ns : String} {secrets secrets' : GoMap NamespacedName (Ptr Secret)}
    {configMaps configMaps' : GoMap NamespacedName (Ptr ConfigMap)}
    (h : agreeOn ns secrets secrets' configMaps configMaps') (o : RuntimeConfigOption) :
    renderValue ns o secrets configMaps = renderValue ns o secrets' configMaps' := by
  by_cases hv : o.Value = ""
  · cases hcm : o.ValueFrom.ConfigMapKeyRef with
    | some r =>
      rw [renderValue_configRef secrets configMaps hv hcm,
        renderValue_configRef secrets' configMaps' hv hcm, h.2 _ rfl]
    | none =>
      cases hsec : o.ValueFrom.SecretKeyRef with
      | some r =>
        rw [renderValue_secretRef secrets configMaps hv hcm hsec,
          renderValue_secretRef secrets' configMaps' hv hcm hsec, h.1 _ rfl]
      | none =>
        rw [renderValue_bare secrets configMaps hv hcm hsec,
          renderValue_bare secrets' configMaps' hv hcm hsec]
  · rw [renderValue_literal secrets configMaps hv, renderValue_literal secrets' configMaps' hv]

/-- Snapshots that agree on the namespace of the call give the same run. -/
theorem renderLoop_congr {ns : String} {secrets secrets' : GoMap NamespacedName (Ptr Secret)}
    {configMaps configMaps' : GoMap NamespacedName (Ptr ConfigMap)}
    (h : agreeOn ns secrets secrets' configMaps configMaps')
    (opts : List RuntimeConfigOption) (acc : Finmap (fun _ : String => String)) :
    renderLoop ns secrets configMaps opts acc = renderLoop ns secrets' configMaps' opts acc := by
  induction opts generalizing acc with
  | nil => rfl
  | cons a rest ih =>
    cases hv : renderValue ns a secrets configMaps with
    | error e =>
      rw [renderLoop_cons_error hv, renderLoop_cons_error ((renderValue_congr h a).symm.trans hv)]
    | panic =>
      rw [renderLoop_cons_panic hv, renderLoop_cons_panic ((renderValue_congr h a).symm.trans hv)]
    | ok v =>
      rw [renderLoop_cons_ok hv, renderLoop_cons_ok ((renderValue_congr h a).symm.trans hv)]
      exact ih _

/-- An option of the list whose lookup misses its object makes the resolver
end without a map: it returns the nil map and an error, or it panics. -/
theorem render_fails_of_missing {typeOpt ns : String}
    {secrets : GoMap NamespacedName (Ptr Secret)}
    {configMaps : GoMap NamespacedName (Ptr ConfigMap)} {opts : List RuntimeConfigOption}
    {o : RuntimeConfigOption} (ho : o ∈ opts) (hmiss : missingObject ns secrets configMaps o) :
    (∃ e, renderOptionsIntoMap typeOpt ns opts secrets configMaps = .returns (none, some e)) ∨
    renderOptionsIntoMap typeOpt ns opts secrets configMaps = .panics := by
  obtain ⟨e, he⟩ := (renderValue_error_iff_missing ns o secrets configMaps).mpr hmiss
  exact renderLoop_error_of_mem ho he (Finmap.singleton "type" typeOpt)

/-- On snapshots without nil pointers the resolver does not panic. -/
theorem render_ne_panics {typeOpt ns : String}
    {secrets : GoMap NamespacedName (Ptr Secret)}
    {configMaps : GoMap NamespacedName (Ptr ConfigMap)}
    (hs : noNilEntry secrets) (hc : noNilEntry configMaps) (opts : List RuntimeConfigOption) :
    renderOptionsIntoMap typeOpt ns opts secrets configMaps ≠ .panics :=
  renderLoop_ne_panics (fun x _ => renderValue_ne_panic hs hc x) _

/-! ## The resolver: the reported error -/

/-- C14, as stated, fails on a list whose first option carries a literal next to
a reference.  The first option of the list references the config object
`absent-first`, which the snapshot does not hold under `ns1`; its literal is
used and no lookup is made for it.  The resolver fails on the second option, and
the error names `absent-second`, not the object of the first option whose
referenced object is missing. -/
theorem C14_counterexample :
    optLiteralWithRef.ValueFrom.ConfigMapKeyRef = some { Name := "absent-first", Key := "url" } ∧
    configMapsEx.contains { Name := "absent-first", Namespace := "ns1" } = false ∧
    renderOptionsIntoMap "redis" "ns1"
      [optLiteralWithRef, optConfigRef "region" "absent-second" "region"] secretsEx configMapsEx
      = .returns
        (none, some "unmet dependency while building config: configmap (ns1/absent-second) not found") ∧
    renderOptionsIntoMap "redis" "ns1"
      [optLiteralWithRef, optConfigRef "region" "absent-second" "region"] secretsEx
      configMapsEx
      ≠ .returns
        (none, some "unmet dependency while building config: configmap (ns1/absent-first) not found") := by
  refine ⟨rfl, by decide, by decide, by decide⟩

/-- C14, amended: when `renderOptionsIntoMap` fails, the error it returns is the
one for the first option in list order whose lookup misses its object, that is
the first option that carries no literal and whose config reference, or whose
secret reference when it has no config reference, names an object that is not a
key of the snapshot under the namespace of the call.  The message names the
kind, the namespace of the call and the name of the referenced object. -/
theorem C14_first_missing_object_reported (typeOpt ns : String)
    (opts : List RuntimeConfigOption)
    (secrets : GoMap NamespacedName (Ptr Secret))
    (configMaps : GoMap NamespacedName (Ptr ConfigMap))
    (r : GoMap String String) (e : String)
    (he : renderOptionsIntoMap typeOpt ns opts secrets configMaps = .returns (r, some e)) :
    ∃ pre o post, opts = pre ++ o :: post ∧
      (∀ x ∈ pre, ¬ missingObject ns secrets configMaps x) ∧
      o.Value = "" ∧
      ((∃ r, o.ValueFrom.ConfigMapKeyRef = some r ∧
          configMaps.contains { Name := r.Name, Namespace := ns } = false ∧
          e = "unmet dependency while building config: configmap (" ++ ns ++ "/" ++ r.Name
            ++ ") not found") ∨
       (o.ValueFrom.ConfigMapKeyRef = none ∧
          ∃ r, o.ValueFrom.SecretKeyRef = some r ∧
            secrets.contains { Name := r.Name, Namespace := ns } = false ∧
            e = "unmet dependency while building config: secret (" ++ ns ++ "/" ++ r.Name
              ++ ") not found")) := by
  obtain ⟨pre, o, post, hsplit, hpre, ho⟩ := renderLoop_first_error he
  refine ⟨pre, o, post, hsplit, ?_, (renderValue_error_iff ns o secrets configMaps e).mp ho⟩
  intro x hx hmiss
  obtain ⟨v, hv⟩ := hpre x hx
  obtain ⟨e', he'⟩ := (renderValue_error_iff_missing ns x secrets configMaps).mpr hmiss
  rw [hv] at he'
  cases he'

/-- Witness of C14, amended: two options reference missing objects; the error is
the one of the secret reference, which comes first. -/
theorem C14_first_missing_object_reported_witness :
    renderOptionsIntoMap "redis" "ns1"
      [optLiteralWithRef, optSecretRef "password" "absent-secret" "pw",
        optConfigRef "region" "absent-second" "region"] secretsEx configMapsEx
      = .returns
        (none, some "unmet dependency while building config: secret (ns1/absent-secret) not found") ∧
    ∃ pre o post,
      [optLiteralWithRef, optSecretRef "password" "absent-secret" "pw",
        optConfigRef "region" "absent-second" "region"] = pre ++ o :: post ∧
      (∀ x ∈ pre, ¬ missingObject "ns1" secretsEx configMapsEx x) ∧
      o.Value = "" ∧
      ((∃ r, o.ValueFrom.ConfigMapKeyRef = some r ∧
          configMapsEx.contains { Name := r.Name, Namespace := "ns1" } = false ∧
          "unmet dependency while building config: secret (ns1/absent-secret) not found"
            = "unmet dependency while building config: configmap (" ++ "ns1" ++ "/" ++ r.Name
              ++ ") not found") ∨
       (o.ValueFrom.ConfigMapKeyRef = none ∧
          ∃ r, o.ValueFrom.SecretKeyRef = some r ∧
            secretsEx.contains { Name := r.Name, Namespace := "ns1" } = false ∧
            "unmet dependency while building config: secret (ns1/absent-secret) not found"
              = "unmet dependency while building config: secret (" ++ "ns1" ++ "/" ++ r.Name
                ++ ") not found")) :=
  ⟨by decide,
    C14_first_missing_object_reported "redis" "ns1"
      [optLiteralWithRef, optSecretRef "password" "absent-secret" "pw",
        optConfigRef "region" "absent-second" "region"] secretsEx configMapsEx none
      "unmet dependency while building config: secret (ns1/absent-secret) not found"
      (by decide)⟩

/-! ## The resolver: namespace scope -/

/-- C15, as stated, fails in its last sentence.  The option `optLiteralRegion`
references the config object `app-config`, which the snapshot holds under `ns2`
only; called with `ns1` the resolver uses the literal of the option, makes no
lookup and returns a map: resolution does not fail.  And on a snapshot that
holds the nil pointer under the key of an earlier option the call panics before
it reaches the option whose object is held under `ns2` only, and returns no
error. -/
theorem C15_counterexample :
    (optLiteralRegion.ValueFrom.ConfigMapKeyRef = some { Name := "app-config", Key := "region" } ∧
      configMapsOtherNs.contains { Name := "app-config", Namespace := "ns2" } = true ∧
      configMapsOtherNs.contains { Name := "app-config", Namespace := "ns1" } = false ∧
      renderOptionsIntoMap "redis" "ns1" [optLiteralRegion] none configMapsOtherNs
        = .returns (some ((Finmap.singleton "type" "redis").insert "region" "eu"), none)) ∧
    (configMapsNilOtherNs.contains { Name := "app-config", Namespace := "ns2" } = true ∧
      configMapsNilOtherNs.contains { Name := "app-config", Namespace := "ns1" } = false ∧
      renderOptionsIntoMap "redis" "ns1"
        [optConfigRef "zone" "nil-config" "zone", optConfigRef "region" "app-config" "region"]
        none configMapsNilOtherNs = .panics) := by
  refine ⟨⟨rfl, by decide, by decide, by decide⟩, ⟨by decide, by decide, by decide⟩⟩

/-- C15, amended: the lookups of `renderOptionsIntoMap` are scoped to the
namespace of the call.  Two pairs of snapshots that hold the same entry under
every key of the namespace `ns` give the same outcome, the same map, the same
error or a panic in both, for every type and option list.  In particular an
object of the referenced name that the snapshot holds under other namespaces
only does not satisfy the reference of an option that carries no literal and,
for a secret reference, no config reference: resolving that option fails with
the dependency-not-found error, a call on a list that holds the option returns
no map (it returns an error, or it panics), and it returns an error when no key
of the snapshots holds a nil pointer. -/
theorem C15_lookups_scoped_to_namespace (typeOpt ns : String)
    (opts : List RuntimeConfigOption)
    (secrets : GoMap NamespacedName (Ptr Secret))
    (configMaps : GoMap NamespacedName (Ptr ConfigMap)) :
    (∀ (secrets' : GoMap NamespacedName (Ptr Secret))
      (configMaps' : GoMap NamespacedName (Ptr ConfigMap)),
      agreeOn ns secrets secrets' configMaps configMaps' →
      renderOptionsIntoMap typeOpt ns opts secrets configMaps
        = renderOptionsIntoMap typeOpt ns opts secrets' configMaps') ∧
    (∀ o ∈ opts, o.Value = "" → ∀ r, o.ValueFrom.ConfigMapKeyRef = some r →
      (∀ ns' : String,
        configMaps.contains { Name := r.Name, Namespace := ns' } = true → ns' ≠ ns) →
      renderValue ns o secrets configMaps = .error (errConfigMapNotFound ns r.Name) ∧
      ((∃ e, renderOptionsIntoMap typeOpt ns opts secrets configMaps
          = .returns (none, some e)) ∨
        renderOptionsIntoMap typeOpt ns opts secrets configMaps = .panics) ∧
      (noNilEntry secrets → noNilEntry configMaps →
        ∃ e, renderOptionsIntoMap typeOpt ns opts secrets configMaps
          = .returns (none, some e))) ∧
    (∀ o ∈ opts, o.Value = "" → o.ValueFrom.ConfigMapKeyRef = none →
      ∀ r, o.ValueFrom.SecretKeyRef = some r →
      (∀ ns' : String,
        secrets.contains { Name := r.Name, Namespace := ns' } = true → ns' ≠ ns) →
      renderValue ns o secrets configMaps = .error (errSecretNotFound ns r.Name) ∧
      ((∃ e, renderOptionsIntoMap typeOpt ns opts secrets configMaps
          = .returns (none, some e)) ∨
        renderOptionsIntoMap typeOpt ns opts secrets configMaps = .panics) ∧
      (noNilEntry secrets → noNilEntry configMaps →
        ∃ e, renderOptionsIntoMap typeOpt ns opts secrets configMaps
          = .returns (none, some e))) := by
  have hlist : ∀ o ∈ opts, missingObject ns secrets configMaps o →
      ((∃ e, renderOptionsIntoMap typeOpt ns opts secrets configMaps
          = .returns (none, some e)) ∨
        renderOptionsIntoMap typeOpt ns opts secrets configMaps = .panics) ∧
      (noNilEntry secrets → noNilEntry configMaps →
        ∃ e, renderOptionsIntoMap typeOpt ns opts secrets configMaps
          = .returns (none, some e)) := by
    intro o ho hmiss
    have hcases := @render_fails_of_missing typeOpt ns secrets configMaps opts o ho hmiss
    refine ⟨hcases, fun hs hc => ?_⟩
    rcases hcases with h | hp
    · exact h
    · exact absurd hp (render_ne_panics hs hc opts)
  refine ⟨?_, ?_, ?_⟩
  · intro secrets' configMaps' h
    exact renderLoop_congr h opts _
  · intro o ho hv r hr honly
    have habsent : configMaps.contains { Name := r.Name, Namespace := ns } = false := by
      cases hc : GoMap.contains configMaps { Name := r.Name, Namespace := ns } with
      | false => rfl
      | true => exact absurd rfl (honly ns hc)
    refine ⟨?_, hlist o ho ⟨hv, Or.inl ⟨r, hr, habsent⟩⟩⟩
    exact (renderValue_error_iff ns o secrets configMaps _).mpr
      ⟨hv, Or.inl ⟨r, hr, habsent, rfl⟩⟩
  · intro o ho hv hcm r hr honly
    have habsent : secrets.contains { Name := r.Name, Namespace := ns } = false := by
      cases hc : GoMap.contains secrets { Name := r.Name, Namespace := ns } with
      | false => rfl
      | true => exact absurd rfl (honly ns hc)
    refine ⟨?_, hlist o ho ⟨hv, Or.inr ⟨hcm, r, hr, habsent⟩⟩⟩
    exact (renderValue_error_iff ns o secrets configMaps _).mpr
      ⟨hv, Or.inr ⟨hcm, r, hr, habsent, rfl⟩⟩

/-- Witness of C15, amended: the config object `app-config` is held under `ns2`
only, and a call with the namespace `ns1` gives the outcome of the call on nil
snapshots, an error. -/
theorem C15_lookups_scoped_to_namespace_witness :
    agreeOn "ns1" none none configMapsOtherNs none ∧
    configMapsOtherNs.contains { Name := "app-config", Namespace := "ns2" } = true ∧
    renderOptionsIntoMap "redis" "ns1" [optConfigRef "region" "app-config" "region"] none
        configMapsOtherNs
      = renderOptionsIntoMap "redis" "ns1" [optConfigRef "region" "app-config" "region"] none
          none ∧
    renderOptionsIntoMap "redis" "ns1" [optConfigRef "region" "app-config" "region"] none
        configMapsOtherNs
      = .returns
        (none, some "unmet dependency while building config: configmap (ns1/app-config) not found") ∧
    renderOptionsIntoMap "redis" "ns2" [optConfigRef "region" "app-config" "region"] none
        configMapsOtherNs
      = .returns (some ((Finmap.singleton "type" "redis").insert "region" "eu-west"), none) :=
  have hagree : agreeOn "ns1" none none configMapsOtherNs none := by
    refine ⟨fun _ _ => rfl, fun key hkey => ?_⟩
    have hne : key ≠ { Namespace := "ns2", Name := "app-config" } := by
      intro h
      rw [h] at hkey
      exact absurd hkey (by decide)
    simp only [GoMap.get?, configMapsOtherNs]
    rw [Finmap.lookup_eq_none, Finmap.mem_singleton]
    exact hne
  ⟨hagree, by decide,
    (C15_lookups_scoped_to_namespace "redis" "ns1" [optConfigRef "region" "app-config" "region"]
      none configMapsOtherNs).1 none none hagree,
    by decide, by decide⟩

/-! ## The resolver: characterisation of a successful run -/

/-- A run without error is the left fold of map insertion over the options. -/
theorem renderLoop_eq_foldInsert {ns : String} {secrets : GoMap NamespacedName (Ptr Secret)}
    {configMaps : GoMap NamespacedName (Ptr ConfigMap)} {opts : List RuntimeConfigOption}
    {acc m : Finmap (fun _ : String => String)}
    (h : renderLoop ns secrets configMaps opts acc = .returns (some m, none)) :
    m = foldInsert ns secrets configMaps opts acc := by
  induction opts generalizing acc with
  | nil =>
    simp only [renderLoop, Outcome.returns.injEq, Prod.mk.injEq, Option.some.injEq,
      and_true] at h
    rw [← h]
    rfl
  | cons a rest ih =>
    cases hv : renderValue ns a secrets configMaps with
    | error e => rw [renderLoop_cons_error hv] at h; simp at h
    | panic => rw [renderLoop_cons_panic hv] at h; simp at h
    | ok v =>
      rw [renderLoop_cons_ok hv] at h
      have hres : resolvedValue ns secrets configMaps a = v := by
        simp only [resolvedValue, hv]
      rw [ih h, foldInsert, foldInsert, List.foldl_cons, hres]

/-- The keys after a run without error are the keys before it and the names of
the options. -/
theorem renderLoop_keys {ns : String} {secrets : GoMap NamespacedName (Ptr Secret)}
    {configMaps : GoMap NamespacedName (Ptr ConfigMap)} {opts : List RuntimeConfigOption}
    {acc m : Finmap (fun _ : String => String)}
    (h : renderLoop ns secrets configMaps opts acc = .returns (some m, none)) :
    m.keys = acc.keys ∪ (opts.map (fun o => o.Name)).toFinset := by
  induction opts generalizing acc with
  | nil =>
    simp only [renderLoop, Outcome.returns.injEq, Prod.mk.injEq, Option.some.injEq,
      and_true] at h
    rw [← h]
    simp
  | cons a rest ih =>
    cases hv : renderValue ns a secrets configMaps with
    | error e => rw [renderLoop_cons_error hv] at h; simp at h
    | panic => rw [renderLoop_cons_panic hv] at h; simp at h
    | ok v =>
      rw [renderLoop_cons_ok hv] at h
      rw [ih h, keys_insert]
      ext k
      simp only [Finset.mem_union, Finset.mem_insert, List.map_cons, List.toFinset_cons]
      tauto

/-- C16: a map `m` that `renderOptionsIntoMap` returns without error for the
type `typeOpt` and the options `opts` has as its keys exactly `type` and the
names of the options, so at most one more key than there are options; under the
name of an option that no later option shares its name with it holds the value
of that option, whatever the earlier options of that name resolved to, and every
name of the list has such a last option; and `m` is the left fold over `opts` of
map insertion, each option under its name with its resolved value, from the map
that holds `typeOpt` under `type`. -/
theorem C16_last_write_wins (typeOpt ns : String) (opts : List RuntimeConfigOption)
    (secrets : GoMap NamespacedName (Ptr Secret))
    (configMaps : GoMap NamespacedName (Ptr ConfigMap))
    (m : Finmap (fun _ : String => String))
    (hm : renderOptionsIntoMap typeOpt ns opts secrets configMaps = .returns (some m, none)) :
    m.keys = insert "type" (opts.map (fun o => o.Name)).toFinset ∧
    m.keys.card ≤ 1 + opts.length ∧
    (∀ (pre : List RuntimeConfigOption) (o : RuntimeConfigOption)
      (post : List RuntimeConfigOption),
      opts = pre ++ o :: post → (∀ o' ∈ post, o'.Name ≠ o.Name) →
      renderValue ns o secrets configMaps = .ok (resolvedValue ns secrets configMaps o) ∧
      m.lookup o.Name = some (resolvedValue ns secrets configMaps o)) ∧
    (∀ n ∈ opts.map (fun o => o.Name),
      ∃ pre o post, opts = pre ++ o :: post ∧ o.Name = n ∧ (∀ o' ∈ post, o'.Name ≠ n) ∧
        m.lookup n = some (resolvedValue ns secrets configMaps o)) ∧
    m = foldInsert ns secrets configMaps opts (Finmap.singleton "type" typeOpt) ∧
    (∀ o ∈ opts,
      renderValue ns o secrets configMaps = .ok (resolvedValue ns secrets configMaps o)) := by
  have hkeys : m.keys = insert "type" (opts.map (fun o => o.Name)).toFinset := by
    rw [renderLoop_keys hm, Finmap.keys_singleton]
    rfl
  have hval : ∀ o ∈ opts,
      renderValue ns o secrets configMaps = .ok (resolvedValue ns secrets configMaps o) := by
    intro o ho
    obtain ⟨v, hv⟩ := renderLoop_ok_value hm ho
    simp only [resolvedValue, hv]
  have hlast : ∀ (pre : List RuntimeConfigOption) (o : RuntimeConfigOption)
      (post : List RuntimeConfigOption),
      opts = pre ++ o :: post → (∀ o' ∈ post, o'.Name ≠ o.Name) →
      renderValue ns o secrets configMaps = .ok (resolvedValue ns secrets configMaps o) ∧
      m.lookup o.Name = some (resolvedValue ns secrets configMaps o) := by
    intro pre o post hsplit hpost
    subst hsplit
    obtain ⟨v, hv, hlook⟩ := renderLoop_lookup_last hm hpost
    have hres : resolvedValue ns secrets configMaps o = v := by
      simp only [resolvedValue, hv]
    rw [hres]
    exact ⟨hv, hlook⟩
  refine ⟨hkeys, ?_, hlast, ?_, renderLoop_eq_foldInsert hm, hval⟩
  · rw [hkeys]
    calc (insert "type" (opts.map (fun o => o.Name)).toFinset).card
        ≤ (opts.map (fun o => o.Name)).toFinset.card + 1 := Finset.card_insert_le _ _
      _ ≤ (opts.map (fun o => o.Name)).length + 1 :=
          Nat.add_le_add_right (List.toFinset_card_le _) 1
      _ = 1 + opts.length := by rw [List.length_map, Nat.add_comm]
  · intro n hn
    obtain ⟨o, ho, hname⟩ := List.mem_map.mp hn
    obtain ⟨pre, o', post, hsplit, hname', hpost⟩ := exists_last_named opts n ⟨o, ho, hname⟩
    refine ⟨pre, o', post, hsplit, hname', hpost, ?_⟩
    have := (hlast pre o' post hsplit (fun x hx => by rw [hname']; exact hpost x hx)).2
    rw [hname'] at this
    exact this

/-- Witness of C16: three options, two of them named `url`; the map has three
keys and holds the literal of the later `url`. -/
theorem C16_last_write_wins_witness :
    renderOptionsIntoMap "redis" "ns1" optsUrlTwice secretsEx configMapsEx
      = .returns (some mapUrlTwice, none) ∧
    mapUrlTwice.keys = insert "type" (optsUrlTwice.map (fun o => o.Name)).toFinset ∧
    mapUrlTwice.keys.card = 3 ∧
    mapUrlTwice.lookup "url" = some "redis://new" ∧
    mapUrlTwice
      = foldInsert "ns1" secretsEx configMapsEx optsUrlTwice (Finmap.singleton "type" "redis") :=
  ⟨by decide,
    (C16_last_write_wins "redis" "ns1" optsUrlTwice secretsEx configMapsEx mapUrlTwice
      (by decide)).1,
    by decide, by decide,
    (C16_last_write_wins "redis" "ns1" optsUrlTwice secretsEx configMapsEx mapUrlTwice
      (by decide)).2.2.2.2.1⟩

/-! ## The resolver: exact failure condition -/

/-- C17, as stated, fails on a snapshot that holds a nil pointer.  In the first
list the second option has an empty literal, no config reference and a secret
reference whose object is not a key of the secret snapshot, yet the call returns
no error: the first option references `nil-config`, whose key holds the nil
pointer, and line 117 reads a field through it, so the call panics.  In the
second list the object of the only reference is a key of the config snapshot,
yet the call does not resolve: it panics. -/
theorem C17_counterexample :
    ((optSecretRef "password" "absent-secret" "pw").Value = "" ∧
      (optSecretRef "password" "absent-secret" "pw").ValueFrom.ConfigMapKeyRef = none ∧
      (optSecretRef "password" "absent-secret" "pw").ValueFrom.SecretKeyRef
        = some { Name := "absent-secret", Key := "pw" } ∧
      secretsEx.contains { Name := "absent-secret", Namespace := "ns1" } = false ∧
      renderOptionsIntoMap "redis" "ns1"
        [optConfigRef "zone" "nil-config" "zone", optSecretRef "password" "absent-secret" "pw"]
        secretsEx configMapsNil = .panics) ∧
    ((optConfigRef "zone" "nil-config" "zone").ValueFrom.ConfigMapKeyRef
        = some { Name := "nil-config", Key := "zone" } ∧
      (optConfigRef "zone" "nil-config" "zone").ValueFrom.SecretKeyRef = none ∧
      configMapsNil.contains { Name := "nil-config", Namespace := "ns1" } = true ∧
      configMapsNil.get? { Name := "nil-config", Namespace := "ns1" } = some none ∧
      renderOptionsIntoMap "redis" "ns1" [optConfigRef "zone" "nil-config" "zone"]
        secretsEx configMapsNil = .panics) := by
  refine ⟨⟨rfl, rfl, rfl, by decide, by decide⟩, ⟨rfl, rfl, by decide, ?_, by decide⟩⟩
  exact Finmap.lookup_singleton_eq

/-- C17, amended: on snapshots none of whose keys holds a nil pointer,
`renderOptionsIntoMap` returns an error if and only if the list holds an option
with an empty literal that either has a config reference whose object is not a
key of the config snapshot under the namespace of the call, or has no config
reference and has a secret reference whose object is not a key of the secret
snapshot under that namespace; it returns either a map and no error or an error
and no map; and an option list whose every referenced object is in its
snapshot resolves without error.  On all snapshots, an error is returned only
when the list holds such an option, and an option list without references
resolves without error. -/
theorem C17_exact_failure_condition (typeOpt ns : String) (opts : List RuntimeConfigOption)
    (secrets : GoMap NamespacedName (Ptr Secret))
    (configMaps : GoMap NamespacedName (Ptr ConfigMap)) :
    (noNilEntry secrets → noNilEntry configMaps →
      ((∃ r e, renderOptionsIntoMap typeOpt ns opts secrets configMaps = .returns (r, some e)) ↔
        ∃ o ∈ opts, o.Value = "" ∧
          ((∃ r, o.ValueFrom.ConfigMapKeyRef = some r ∧
              configMaps.contains { Name := r.Name, Namespace := ns } = false) ∨
           (o.ValueFrom.ConfigMapKeyRef = none ∧
              ∃ r, o.ValueFrom.SecretKeyRef = some r ∧
                secrets.contains { Name := r.Name, Namespace := ns } = false))) ∧
      ((∃ m, renderOptionsIntoMap typeOpt ns opts secrets configMaps
          = .returns (some m, none)) ∨
        (∃ e, renderOptionsIntoMap typeOpt ns opts secrets configMaps
          = .returns (none, some e))) ∧
      ((∀ o ∈ opts,
          (∀ r, o.ValueFrom.ConfigMapKeyRef = some r →
            configMaps.contains { Name := r.Name, Namespace := ns } = true) ∧
          (∀ r, o.ValueFrom.SecretKeyRef = some r →
            secrets.contains { Name := r.Name, Namespace := ns } = true)) →
        ∃ m, renderOptionsIntoMap typeOpt ns opts secrets configMaps
          = .returns (some m, none))) ∧
    ((∃ r e, renderOptionsIntoMap typeOpt ns opts secrets configMaps = .returns (r, some e)) →
      ∃ o ∈ opts, o.Value = "" ∧
        ((∃ r, o.ValueFrom.ConfigMapKeyRef = some r ∧
            configMaps.contains { Name := r.Name, Namespace := ns } = false) ∨
         (o.ValueFrom.ConfigMapKeyRef = none ∧
            ∃ r, o.ValueFrom.SecretKeyRef = some r ∧
              secrets.contains { Name := r.Name, Namespace := ns } = false))) ∧
    ((∀ o ∈ opts, o.ValueFrom.ConfigMapKeyRef = none ∧ o.ValueFrom.SecretKeyRef = none) →
      ∃ m, renderOptionsIntoMap typeOpt ns opts secrets configMaps
        = .returns (some m, none)) := by
  have hcases := renderLoop_cases ns secrets configMaps opts (Finmap.singleton "type" typeOpt)
  have honly : (∃ r e, renderOptionsIntoMap typeOpt ns opts secrets configMaps
        = .returns (r, some e)) →
      ∃ o ∈ opts, missingObject ns secrets configMaps o := by
    rintro ⟨r, e, he⟩
    obtain ⟨pre, o, post, hsplit, _, ho⟩ := renderLoop_first_error he
    exact ⟨o, by rw [hsplit]; simp,
      (renderValue_error_iff_missing ns o secrets configMaps).mp ⟨e, ho⟩⟩
  have hbare : (∀ o ∈ opts,
        o.ValueFrom.ConfigMapKeyRef = none ∧ o.ValueFrom.SecretKeyRef = none) →
      ∃ m, renderOptionsIntoMap typeOpt ns opts secrets configMaps
        = .returns (some m, none) := by
    intro hnone
    have hnopanic : ∀ o ∈ opts, renderValue ns o secrets configMaps ≠ .panic := by
      intro o ho
      obtain ⟨hcm, hsec⟩ := hnone o ho
      by_cases hv : o.Value = ""
      · rw [renderValue_bare secrets configMaps hv hcm hsec]
        simp
      · rw [renderValue_literal secrets configMaps hv]
        simp
    rcases hcases with hmap | ⟨e, he⟩ | hp
    · exact hmap
    · obtain ⟨o, ho, _, h⟩ := honly ⟨none, e, he⟩
      obtain ⟨hcm, hsec⟩ := hnone o ho
      rcases h with ⟨r, hr, _⟩ | ⟨_, r, hr, _⟩
      · rw [hcm] at hr; cases hr
      · rw [hsec] at hr; cases hr
    · exact absurd hp (renderLoop_ne_panics hnopanic _)
  refine ⟨fun hs hc => ?_, honly, hbare⟩
  have hnp := @render_ne_panics typeOpt ns secrets configMaps hs hc opts
  have htwo : (∃ m, renderOptionsIntoMap typeOpt ns opts secrets configMaps
        = .returns (some m, none)) ∨
      (∃ e, renderOptionsIntoMap typeOpt ns opts secrets configMaps
        = .returns (none, some e)) := by
    rcases hcases with hmap | herr | hp
    · exact Or.inl hmap
    · exact Or.inr herr
    · exact absurd hp hnp
  refine ⟨⟨honly, ?_⟩, htwo, fun hall => ?_⟩
  · rintro ⟨o, ho, hmiss⟩
    rcases @render_fails_of_missing typeOpt ns secrets configMaps opts o ho hmiss with
      ⟨e, he⟩ | hp
    · exact ⟨none, e, he⟩
    · exact absurd hp hnp
  · rcases htwo with hmap | ⟨e, he⟩
    · exact hmap
    · obtain ⟨o, ho, _, h⟩ := honly ⟨none, e, he⟩
      obtain ⟨hcm, hsec⟩ := hall o ho
      rcases h with ⟨r, hr, hc'⟩ | ⟨_, r, hr, hc'⟩
      · rw [hcm r hr] at hc'; cases hc'
      · rw [hsec r hr] at hc'; cases hc'

/-- Witness of C17, amended: on snapshots without nil pointers the second option
has an empty literal and a secret reference to an object the snapshot does not
hold, so the call returns an error; the list without references resolves. -/
theorem C17_exact_failure_condition_witness :
    noNilEntry secretsEx ∧ noNilEntry configMapsEx ∧
    (∃ r e, renderOptionsIntoMap "redis" "ns1"
      [optLiteral "url" "redis://cache", optSecretRef "password" "absent-secret" "pw"]
      secretsEx configMapsEx = .returns (r, some e)) ∧
    (∃ m, renderOptionsIntoMap "redis" "ns1" [optLiteral "url" "redis://cache", optBare "zone"]
      none none = .returns (some m, none)) :=
  ⟨by decide, by decide,
    ((C17_exact_failure_condition "redis" "ns1"
      [optLiteral "url" "redis://cache", optSecretRef "password" "absent-secret" "pw"]
      secretsEx configMapsEx).1 (by decide) (by decide)).1.mpr
      ⟨optSecretRef "password" "absent-secret" "pw", by decide, rfl,
        Or.inr ⟨rfl, { Name := "absent-secret", Key := "pw" }, rfl, by decide⟩⟩,
    (C17_exact_failure_condition "redis" "ns1"
      [optLiteral "url" "redis://cache", optBare "zone"] none none).2.2 (by decide)⟩

/-! ## The resolver: precedence among the forms of an option -/

/-- C18: precedence among the forms of one option.  An option with a non-empty
literal resolves to that literal for every pair of snapshots, whatever
references it carries, so no lookup decides its value and a list of such
options resolves without error even on nil snapshots.  An option with an empty
literal and a config reference resolves from the config reference, with the
same result for every secret snapshot, whether or not it also carries a secret
reference.  An option with an empty literal, no config reference and a secret
reference resolves from the secret reference.  A lookup that finds a nil pointer
under the key panics. -/
theorem C18_form_precedence (ns : String) (o : RuntimeConfigOption) :
    (o.Value ≠ "" →
      (∀ (secrets : GoMap NamespacedName (Ptr Secret))
        (configMaps : GoMap NamespacedName (Ptr ConfigMap)),
        renderValue ns o secrets configMaps = .ok o.Value) ∧
      (∀ typeOpt : String,
        renderOptionsIntoMap typeOpt ns [o] none none
          = .returns (some ((Finmap.singleton "type" typeOpt).insert o.Name o.Value), none))) ∧
    (∀ opts : List RuntimeConfigOption, (∀ x ∈ opts, x.Value ≠ "") →
      ∀ (typeOpt : String) (secrets : GoMap NamespacedName (Ptr Secret))
        (configMaps : GoMap NamespacedName (Ptr ConfigMap)),
        ∃ m, renderOptionsIntoMap typeOpt ns opts secrets configMaps = .returns (some m, none)) ∧
    (o.Value = "" → ∀ r, o.ValueFrom.ConfigMapKeyRef = some r →
      ∀ (secrets : GoMap NamespacedName (Ptr Secret))
        (configMaps : GoMap NamespacedName (Ptr ConfigMap)),
        renderValue ns o secrets configMaps
          = (match configMaps.get? { Name := r.Name, Namespace := ns } with
            | none => .error (errConfigMapNotFound ns r.Name)
            | some none => .panic
            | some (some cm) => .ok ((cm.Data.get? r.Key).getD "")) ∧
        ∀ secrets' : GoMap NamespacedName (Ptr Secret),
          renderValue ns o secrets' configMaps = renderValue ns o secrets configMaps) ∧
    (o.Value = "" → o.ValueFrom.ConfigMapKeyRef = none → ∀ r, o.ValueFrom.SecretKeyRef = some r →
      ∀ (secrets : GoMap NamespacedName (Ptr Secret))
        (configMaps : GoMap NamespacedName (Ptr ConfigMap)),
        renderValue ns o secrets configMaps
          = match secrets.get? { Name := r.Name, Namespace := ns } with
            | none => .error (errSecretNotFound ns r.Name)
            | some none => .panic
            | some (some sec) =>
              .ok (match sec.Data.get? r.Key with
                   | none => ""
                   | some b => b.toGoString)) := by
  refine ⟨fun hv => ⟨fun secrets configMaps => renderValue_literal secrets configMaps hv,
      fun typeOpt => ?_⟩, ?_, ?_, ?_⟩
  · rw [renderOptionsIntoMap, renderLoop_cons_ok (renderValue_literal none none hv), renderLoop]
  · intro opts hall typeOpt secrets configMaps
    rcases renderLoop_cases ns secrets configMaps opts (Finmap.singleton "type" typeOpt) with
      hmap | ⟨e, he⟩ | hp
    · exact hmap
    · obtain ⟨pre, x, post, hsplit, _, hx⟩ := renderLoop_first_error he
      have hmem : x ∈ opts := by rw [hsplit]; simp
      rw [renderValue_literal secrets configMaps (hall x hmem)] at hx
      cases hx
    · refine absurd hp (renderLoop_ne_panics (fun x hx => ?_) _)
      rw [renderValue_literal secrets configMaps (hall x hx)]
      simp
  · intro hv r hr secrets configMaps
    refine ⟨renderValue_configRef secrets configMaps hv hr, fun secrets' => ?_⟩
    rw [renderValue_configRef secrets configMaps hv hr,
      renderValue_configRef secrets' configMaps hv hr]
  · intro hv hcm r hr secrets configMaps
    exact renderValue_secretRef secrets configMaps hv hcm hr

/-- Witness of C18: a literal next to a reference to a missing config object
resolves to the literal; an empty literal with both references resolves to the
config value although the secret object is missing. -/
theorem C18_form_precedence_witness :
    renderValue "ns1" optLiteralWithRef secretsEx configMapsEx = .ok "redis://cache" ∧
    renderOptionsIntoMap "redis" "ns1" [optLiteralWithRef] none none
      = .returns (some ((Finmap.singleton "type" "redis").insert "url" "redis://cache"), none) ∧
    renderValue "ns1" optConfigFirst secretsEx configMapsEx = .ok "eu-west" ∧
    renderValue "ns1" optConfigFirst none configMapsEx
      = renderValue "ns1" optConfigFirst secretsEx configMapsEx ∧
    renderValue "ns1" (optSecretRef "password" "db-secret" "pw") secretsEx configMapsEx
      = .ok "s3cr3t" :=
  ⟨((C18_form_precedence "ns1" optLiteralWithRef).1 (by decide)).1 secretsEx configMapsEx,
    ((C18_form_precedence "ns1" optLiteralWithRef).1 (by decide)).2 "redis",
    ((C18_form_precedence "ns1" optConfigFirst).2.2.1 rfl
      { Name := "app-config", Key := "region" } rfl secretsEx configMapsEx).1,
    ((C18_form_precedence "ns1" optConfigFirst).2.2.1 rfl
      { Name := "app-config", Key := "region" } rfl secretsEx configMapsEx).2 none,
    (C18_form_precedence "ns1" (optSecretRef "password" "db-secret" "pw")).2.2.2 rfl rfl
      { Name := "db-secret", Key := "pw" } rfl secretsEx configMapsEx⟩

/-! ## Frame of the insertion operations -/

/-- C19: whether the call returns no error, returns an error or panics,
`AddKeyValueStore` leaves the
variable-provider sequence, the database mapping and the compute-backend map as
they were; `AddSQLiteDatabase` leaves the variable-provider sequence, the
key/value store mapping and the compute-backend map as they were; and
`AddLLMCompute` leaves the variable-provider sequence, the key/value store
mapping and the database mapping as they were. -/
theorem C19_insertion_frame (s : Spin) (name storeType ns : String)
    (secrets : GoMap NamespacedName (Ptr Secret))
    (configMaps : GoMap NamespacedName (Ptr ConfigMap))
    (opts : List RuntimeConfigOption) :
    ((AddKeyValueStore s name storeType ns secrets configMaps opts).1.Variables = s.Variables ∧
      (AddKeyValueStore s name storeType ns secrets configMaps opts).1.SQLiteDatabases
        = s.SQLiteDatabases ∧
      (AddKeyValueStore s name storeType ns secrets configMaps opts).1.LLMCompute
        = s.LLMCompute) ∧
    ((AddSQLiteDatabase s name storeType ns secrets configMaps opts).1.Variables = s.Variables ∧
      (AddSQLiteDatabase s name storeType ns secrets configMaps opts).1.KeyValueStores
        = s.KeyValueStores ∧
      (AddSQLiteDatabase s name storeType ns secrets configMaps opts).1.LLMCompute
        = s.LLMCompute) ∧
    ((AddLLMCompute s storeType ns secrets configMaps opts).1.Variables = s.Variables ∧
      (AddLLMCompute s storeType ns secrets configMaps opts).1.KeyValueStores
        = s.KeyValueStores ∧
      (AddLLMCompute s storeType ns secrets configMaps opts).1.SQLiteDatabases
        = s.SQLiteDatabases) := by
  refine ⟨AddKeyValueStore_frame s name storeType ns secrets configMaps opts,
    AddSQLiteDatabase_frame s name storeType ns secrets configMaps opts, ?_⟩
  have h := AddLLMCompute_frame s storeType ns secrets configMaps opts
  exact ⟨h.1, h.2.1, h.2.2.1⟩

end runtimeconfig
